import Mathlib

/-!
Shallow embedding of the LED controller firmware
(`src/ledcontrol/ledcontrol.ino`, first/canonical variant) and proofs of
the specification claims about it.

Modelling conventions:
* C `double` is modelled by `ℚ` (exact rational arithmetic).
* C `int` is modelled by `ℤ`; `unsigned long` millisecond timestamps by `ℕ`
  (truncated subtraction matches unsigned subtraction away from the 49-day
  wrap, which no claim concerns).
* `byte` (`uint8_t`) fields are `ℕ` produced through `ratToByte`, which
  performs the C narrowing conversion (truncation to integer, then reduction
  mod 256).
* The blocking fade/blink animations are modelled by their net effect on
  `currentColor` (a fold over the interpolation steps of the source loops).
-/

namespace LedControl

/-- Narrowing conversion of a C `double` to a `byte` (`uint8_t`): truncation
toward zero, then reduction mod 2^8. All program values fed to it are
nonnegative, where truncation coincides with `Int.floor`. -/
def ratToByte (q : ℚ) : ℕ := (Int.toNat ⌊q⌋) % 256

/-- C struct `ColorRGB { byte r; byte g; byte b; }`. -/
structure ColorRGB where
  r : ℕ
  g : ℕ
  b : ℕ
deriving DecidableEq, Repr

/-- C template `clamp(x, a, b)` from the source: `x < a ? a : (x > b ? b : x)`. -/
def clamp (x a b : ℚ) : ℚ := if x < a then a else if x > b then b else x

/-- C template `interp(a, b, t)` instantiated at `T = U = double`:
snap to the endpoints when `t` is within `1e-4` of 0 or 1, otherwise
`a + t * (b - a)`. -/
def interpQ (a b t : ℚ) : ℚ :=
  if t < 1 / 10000 then a
  else if t > 1 - 1 / 10000 then b
  else a + t * (b - a)

/-- C template `interp(a, b, t)` instantiated at `T = byte`, `U = double`:
the arithmetic is done in `double` after integer promotion and the result is
narrowed back to `byte`. -/
def interpByte (a b : ℕ) (t : ℚ) : ℕ :=
  if t < 1 / 10000 then a
  else if t > 1 - 1 / 10000 then b
  else ratToByte ((a : ℚ) + t * ((b : ℚ) - (a : ℚ)))

/-- C function `interpColorRGB(c1, c2, t)`: channel-wise byte interpolation. -/
def interpColorRGB (c1 c2 : ColorRGB) (t : ℚ) : ColorRGB :=
  ⟨interpByte c1.r c2.r t, interpByte c1.g c2.g t, interpByte c1.b c2.b t⟩

/-- C function `hsv2rgb(h, s, v, r, g, b)`: sector decomposition
`i = (int)(h*6)`, fractional part `f`, auxiliary `p, q, t`, followed by a
clamp of every channel to [0,1]. Faithful for `h ≥ 0` (all call sites),
where the C truncation `(int)` coincides with `Int.floor` and the C `%`
with `Int.emod`. -/
def hsv2rgb (h s v : ℚ) : ℚ × ℚ × ℚ :=
  let i : ℤ := ⌊h * 6⌋
  let f : ℚ := h * 6 - (i : ℚ)
  let p : ℚ := v * (1 - s)
  let q : ℚ := v * (1 - s * f)
  let t : ℚ := v * (1 - s * (1 - f))
  let rgb : ℚ × ℚ × ℚ :=
    match (i % 6).toNat with
    | 0 => (v, t, p)
    | 1 => (q, v, p)
    | 2 => (p, v, t)
    | 3 => (p, q, v)
    | 4 => (t, p, v)
    | _ => (v, p, q)
  (clamp rgb.1 0 1, clamp rgb.2.1 0 1, clamp rgb.2.2 0 1)

/-- C function `hsv1_to_rgb255(h, s, v)`: convert and scale each channel by
255, narrowing into the `byte` fields of `ColorRGB`. -/
def hsv1_to_rgb255 (h s v : ℚ) : ColorRGB :=
  let rgb := hsv2rgb h s v
  ⟨ratToByte (rgb.1 * 255), ratToByte (rgb.2.1 * 255), ratToByte (rgb.2.2 * 255)⟩

/-- C struct `LowPassFilter { double a = 0.4; double y0 = 0.; }`. -/
structure LowPassFilter where
  a : ℚ := 4 / 10
  y0 : ℚ := 0
deriving DecidableEq, Repr

/-- C member `LowPassFilter::update(x1)`: `y0 = a * x1 + (1.0 - a) * y0`
(the source returns the new `y0`; callers read the `y0` field, so the
model returns the updated filter). -/
def LowPassFilter.update (f : LowPassFilter) (x1 : ℚ) : LowPassFilter :=
  { f with y0 := f.a * x1 + (1 - f.a) * f.y0 }

-- debouncer ------------------------------------------------------------------

/-- Debouncer state for one input line: the slots of the per-input arrays
`lastReading`, `inputState`, `lastDebounceTime` that `debounceInput` touches.
Levels use the Arduino convention `true = HIGH`, `false = LOW`. -/
structure DebounceState where
  lastReading : Bool
  inputState : Bool
  lastDebounceTime : ℕ
deriving DecidableEq, Repr

/-- C global `debounceDelay = 50` (milliseconds). -/
def debounceDelay : ℕ := 50

/-- C function `debounceInput(input)`: one poll of the debouncer with the raw
level `reading` sampled at time `now` (the two `millis()` calls of one
invocation are modelled by the same instant). Returns the updated state and
the `changed` flag. -/
def debounceInput (s : DebounceState) (reading : Bool) (now : ℕ) :
    DebounceState × Bool :=
  let t := if reading ≠ s.lastReading then now else s.lastDebounceTime
  if now - t > debounceDelay ∧ reading ≠ s.inputState then
    (⟨reading, reading, t⟩, true)
  else
    (⟨reading, s.inputState, t⟩, false)

/-- Run the debouncer over a sampled trace of (raw level, time) pairs,
counting the committed transitions. -/
def debounceRun (s : DebounceState) (trace : List (Bool × ℕ)) :
    DebounceState × ℕ :=
  trace.foldl
    (fun acc ev =>
      let r := debounceInput acc.1 ev.1 ev.2
      (r.1, acc.2 + (if r.2 then 1 else 0)))
    (s, 0)

-- controller state ----------------------------------------------------------

/-- C enum `Mode { STATIC, AMBIENT, N_MODES }`. -/
inductive Mode where
  | STATIC
  | AMBIENT
deriving DecidableEq, Repr

/-- C expression `(Mode)((mode + 1) % N_MODES)` with `N_MODES = 2`. -/
def toggleMode : Mode → Mode
  | Mode.STATIC => Mode.AMBIENT
  | Mode.AMBIENT => Mode.STATIC

/-- C struct-free global state of the firmware: every global variable the
poll loops read or write. -/
structure ControllerState where
  mode : Mode
  hue : ℤ
  sat : ℤ
  brightness : ℤ
  adjustIndex : ℕ
  pushTime : ℕ
  currentColor : ColorRGB
  adjustedColor : ColorRGB
  ambientColor : ColorRGB
  maxClear : ℕ
  dynTime : ℕ
  red : ℕ
  green : ℕ
  blue : ℕ
  clear : ℕ
  ambientLuminance : ℚ
  ambientRed : LowPassFilter
  ambientGreen : LowPassFilter
  ambientBlue : LowPassFilter
  ambientClear : LowPassFilter
  luminance : LowPassFilter
  corR : ℚ
  corG : ℚ
  corB : ℚ
  sensorEnabled : Bool
  sensorLight : Bool
  db : DebounceState
  dbL : DebounceState
  dbR : DebounceState
deriving DecidableEq, Repr

-- color driver ---------------------------------------------------------------

/-- C function `fadeToRGB(c, steps, fadeDelay, quadratic)`: net effect on
`currentColor` of the blocking fade loop (the per-step `delay` is dropped,
the sequence of interpolations is kept). -/
def fadeToRGB (cur target : ColorRGB) (steps : ℕ) (quadratic : Bool := false) :
    ColorRGB :=
  (List.range steps).foldl
    (fun c (i : ℕ) =>
      let t := ((i : ℚ) + 1) / (steps : ℚ)
      interpColorRGB c target (if quadratic then t * t else t))
    cur

/-- Blink feedback loop of the short-press branch: `n` times fade to the
inverted color then back to `adjustedColor` (10 steps each). -/
def blinkFeedback (cur inv adj : ColorRGB) (n : ℕ) : ColorRGB :=
  (List.range n).foldl (fun c _ => fadeToRGB (fadeToRGB c inv 10) adj 10) cur

-- button loop ----------------------------------------------------------------

/-- Hold branch of `buttonLoop` (press and hold, source lines 278-319):
sweep the selected parameter by one step with wraparound, recompute
`adjustedColor`, and in static mode apply it to the strip. -/
def holdAction (s : ControllerState) : ControllerState :=
  let s1 :=
    if s.mode = Mode.AMBIENT ∨ s.adjustIndex = 0 then
      let b := s.brightness - 1
      { s with brightness := if b < 0 then 255 else b }
    else if s.adjustIndex = 1 then
      let h := s.hue + 1
      { s with hue := if h > 359 then 0 else h }
    else if s.adjustIndex = 2 then
      let q := s.sat - 1
      { s with sat := if q < 0 then 100 else q }
    else s
  let s2 := { s1 with
    adjustedColor :=
      hsv1_to_rgb255 ((s1.hue : ℚ) / 359) ((s1.sat : ℚ) / 100)
        ((s1.brightness : ℚ) / 255) }
  if s2.mode = Mode.STATIC then { s2 with currentColor := s2.adjustedColor }
  else s2

/-- Release branch of `buttonLoop` (source lines 330-365): classify the held
duration `now - pushTime` into short press (< 300 ms), long/medium press
(< 1000 ms) or hold release (no action). -/
def releaseAction (s : ControllerState) (now : ℕ) : ControllerState :=
  if now - s.pushTime < 300 then
    if s.mode = Mode.STATIC then
      let idx := (s.adjustIndex + 1) % 3
      let inv : ColorRGB :=
        ⟨255 - s.adjustedColor.r, 255 - s.adjustedColor.g, 255 - s.adjustedColor.b⟩
      { s with adjustIndex := idx,
               currentColor := blinkFeedback s.currentColor inv s.adjustedColor (idx + 1) }
    else s
  else if now - s.pushTime < 1000 then
    let m := toggleMode s.mode
    if m = Mode.AMBIENT then
      { s with mode := m, sensorEnabled := true, ambientColor := s.adjustedColor }
    else
      { s with mode := m, sensorEnabled := false,
               currentColor := fadeToRGB s.currentColor s.adjustedColor 100,
               adjustIndex := 0 }
  else s

/-- C function `buttonLoop()`: debounce the button with raw level `reading`
at time `now`, run the hold action while the stable state is LOW for more
than 1000 ms, then dispatch the committed press/release transitions. -/
def buttonLoop (s : ControllerState) (reading : Bool) (now : ℕ) :
    ControllerState :=
  let d := debounceInput s.db reading now
  let s1 := { s with db := d.1 }
  let s2 :=
    if d.1.inputState = false ∧ now - s1.pushTime > 1000 then holdAction s1
    else s1
  if ¬ d.2 then s2
  else if d.1.inputState = false then { s2 with pushTime := now }
  else releaseAction s2 now

-- ambient loop ---------------------------------------------------------------

/-- C globals filled by `tcsGetRawDataNoDelay`: one raw sensor sample. -/
structure RawSample where
  red : ℕ
  green : ℕ
  blue : ℕ
  clear : ℕ
deriving DecidableEq, Repr

/-- New-reading block of `ambientLoop` (source lines 389-425): noise gate,
normalization, color correction and filter updates on the valid path;
luminance interpolation toward `brightness / 255` on the invalid path. -/
def processSample (s : ControllerState) : ControllerState :=
  if s.clear > 0 ∧ s.red > 1 ∧ s.green > 1 ∧ s.blue > 1 then
    let s1 := if s.clear > s.maxClear then { s with maxClear := s.clear } else s
    let r := clamp ((s1.red : ℚ) / (s1.clear : ℚ) * s1.corR) 0 1
    let g := clamp ((s1.green : ℚ) / (s1.clear : ℚ) * s1.corG) 0 1
    let b := clamp ((s1.blue : ℚ) / (s1.clear : ℚ) * s1.corB) 0 1
    let c := (s1.clear : ℚ) / (s1.maxClear : ℚ)
    let lum := s1.luminance.update (2126 / 10000 * r + 7152 / 10000 * g + 722 / 10000 * b)
    { s1 with luminance := lum,
              ambientLuminance := lum.y0,
              ambientRed := s1.ambientRed.update r,
              ambientGreen := s1.ambientGreen.update g,
              ambientBlue := s1.ambientBlue.update b,
              ambientClear := s1.ambientClear.update c }
  else
    let al := interpQ s.ambientLuminance ((s.brightness : ℚ) / 255) (1 / 1000)
    { s with ambientLuminance := al,
             ambientRed := s.ambientRed.update al,
             ambientGreen := s.ambientGreen.update al,
             ambientBlue := s.ambientBlue.update al }

/-- Dynamic brightness factor `dyn = interp(0.13, brightness / 255., ambientClear.y0)`
(source line 435). -/
def dynFactor (s : ControllerState) : ℚ :=
  interpQ (13 / 100) ((s.brightness : ℚ) / 255) s.ambientClear.y0

/-- Channel values `ambient*.y0 * dyn * 255` of the ambient target color
before the narrowing into `ColorRGB` (source line 436). -/
def ambientTarget (s : ControllerState) : ℚ × ℚ × ℚ :=
  (s.ambientRed.y0 * dynFactor s * 255,
   s.ambientGreen.y0 * dynFactor s * 255,
   s.ambientBlue.y0 * dynFactor s * 255)

/-- C function `ambientLoop()` at time `now`; `sample` is `some` exactly when
the interrupt flag `colorRead` was set, and carries the raw registers
fetched by `tcsGetRawDataNoDelay` into the globals. -/
def ambientLoop (s : ControllerState) (sample : Option RawSample) (now : ℕ) :
    ControllerState :=
  if s.mode ≠ Mode.AMBIENT then s
  else
    let s1 :=
      match sample with
      | some sm =>
          processSample
            { s with red := sm.red, green := sm.green, blue := sm.blue, clear := sm.clear }
      | none => s
    let s2 :=
      if s1.clear < s1.maxClear ∧ now - s1.dynTime > 2000 then
        { s1 with maxClear := max (s1.maxClear - 1) 1, dynTime := now }
      else s1
    let tgt := ambientTarget s2
    let target : ColorRGB := ⟨ratToByte tgt.1, ratToByte tgt.2.1, ratToByte tgt.2.2⟩
    let ac := interpColorRGB s2.ambientColor target (88 / 100)
    { s2 with ambientColor := ac, currentColor := ac }

-- switch loop and full poll iteration ----------------------------------------

/-- C function `switchLoop()`: the two auxiliary switches drive the sensor
LED pin through the same debouncer. -/
def switchLoop (s : ControllerState) (readL readR : Bool) (now : ℕ) :
    ControllerState :=
  let dL := debounceInput s.dbL readL now
  let s1 :=
    if dL.2 then { s with dbL := dL.1, sensorLight := !dL.1.inputState }
    else { s with dbL := dL.1 }
  let dR := debounceInput s1.dbR readR now
  if dR.2 then { s1 with dbR := dR.1, sensorLight := !dR.1.inputState }
  else { s1 with dbR := dR.1 }

/-- Inputs consumed by one iteration of `loop()`. -/
structure LoopInput where
  switchL : Bool
  switchR : Bool
  buttonLevel : Bool
  sample : Option RawSample
  now : ℕ
deriving DecidableEq, Repr

/-- C function `loop()`: `switchLoop(); buttonLoop(); ambientLoop();`. -/
def loopStep (s : ControllerState) (inp : LoopInput) : ControllerState :=
  ambientLoop (buttonLoop (switchLoop s inp.switchL inp.switchR inp.now)
      inp.buttonLevel inp.now)
    inp.sample inp.now

-- startup --------------------------------------------------------------------

/-- C function `correctColor(r, g, b)`: derive the correction factors from
the white-balance reference triple. -/
def correctColor (s : ControllerState) (r g b : ℚ) : ControllerState :=
  let sum := r + g + b
  { s with corR := sum / (3 * r), corG := sum / (3 * g), corB := sum / (3 * b) }

/-- C function `initColors(h, s, v)`. -/
def initColors (st : ControllerState) (h s v : ℚ) : ControllerState :=
  let ac := hsv1_to_rgb255 h s v
  { st with adjustedColor := ac,
            ambientRed := { st.ambientRed with y0 := (ac.r : ℚ) / 255 },
            ambientGreen := { st.ambientGreen with y0 := (ac.g : ℚ) / 255 },
            ambientBlue := { st.ambientBlue with y0 := (ac.b : ℚ) / 255 },
            luminance := { st.luminance with y0 := (st.brightness : ℚ) / 255 },
            ambientColor := ac }

/-- C function `fluorescentFlicker()`: net effect of the attract animation on
`currentColor`. -/
def fluorescentFlicker (cur adj : ColorRGB) : ColorRGB :=
  let c1 := fadeToRGB cur adj 20
  let c2 := fadeToRGB c1 ⟨0, 0, 0⟩ 10 true
  let c3 := fadeToRGB c2 adj 20
  let c4 := fadeToRGB c3 ⟨0, 0, 0⟩ 10 true
  fadeToRGB c4 adj 100

/-- Global variable initializers of the firmware (state before `setup`). -/
def initState : ControllerState :=
  { mode := Mode.STATIC, hue := 256, sat := 66, brightness := 192,
    adjustIndex := 0, pushTime := 0,
    currentColor := ⟨0, 0, 0⟩, adjustedColor := ⟨0, 0, 0⟩, ambientColor := ⟨0, 0, 0⟩,
    maxClear := 1, dynTime := 0,
    red := 0, green := 0, blue := 0, clear := 0,
    ambientLuminance := 192 / 255,
    ambientRed := {}, ambientGreen := {}, ambientBlue := {},
    ambientClear := {}, luminance := {},
    corR := 1, corG := 1, corB := 1,
    sensorEnabled := false, sensorLight := false,
    db := ⟨true, true, 0⟩, dbL := ⟨true, true, 0⟩, dbR := ⟨true, true, 0⟩ }

/-- Top-level system state: `halted` is the empty infinite loop entered when
`tcs.begin()` fails in `setup`; `running` carries the controller globals. -/
inductive SysState where
  | halted
  | running (s : ControllerState)
deriving DecidableEq, Repr

/-- C reference white-balance averages `avgR, avgG, avgB`. -/
def avgR : ℚ := 24 / 100

/-- C reference white-balance average for the green channel. -/
def avgG : ℚ := 37 / 100

/-- C reference white-balance average for the blue channel. -/
def avgB : ℚ := 39 / 100

/-- C function `setup()`: drive the strip black, halt forever if the sensor
fails to initialize, otherwise apply the boot-time mode override, derive the
correction factors, seed the colors and play the attract animation. The list
collects the strip colors driven so far (the black write precedes the sensor
check). -/
def setup (beginOk : Bool) (buttonLow : Bool) : SysState × List ColorRGB :=
  if ¬ beginOk then (SysState.halted, [⟨0, 0, 0⟩])
  else
    let s := initState
    let s := if buttonLow then { s with mode := toggleMode s.mode } else s
    let s :=
      if s.mode = Mode.AMBIENT then { s with sensorEnabled := true }
      else { s with sensorEnabled := false }
    let s := correctColor s avgR avgG avgB
    let s := initColors s ((s.hue : ℚ) / 360) ((s.sat : ℚ) / 100) ((s.brightness : ℚ) / 255)
    let s := { s with currentColor := fluorescentFlicker s.currentColor s.adjustedColor }
    (SysState.running s, [⟨0, 0, 0⟩])

/-- One iteration of the firmware main loop at system level: the halted state
executes the empty `for (;;) {}` body, so nothing runs and nothing is
written to the strip. -/
def sysStep : SysState → LoopInput → SysState
  | SysState.halted, _ => SysState.halted
  | SysState.running s, inp => SysState.running (loopStep s inp)

/-- Iterated system steps over a list of poll inputs. -/
def runSys (st : SysState) (ins : List LoopInput) : SysState :=
  ins.foldl sysStep st

-- derived notions used by the claims -----------------------------------------

/-- Number of channels of `c` whose byte value equals `v`. -/
def countChannels (c : ColorRGB) (v : ℕ) : ℕ :=
  (if c.r = v then 1 else 0) + (if c.g = v then 1 else 0) + (if c.b = v then 1 else 0)

/-- Invariant of one smoothing filter: the coefficient is the (never
re-assigned) initializer `0.4` and the accumulator sits in `[0, 1]`. -/
def FilterInv (f : LowPassFilter) : Prop :=
  f.a = 4 / 10 ∧ 0 ≤ f.y0 ∧ f.y0 ≤ 1

instance (f : LowPassFilter) : Decidable (FilterInv f) := by
  unfold FilterInv
  infer_instance

/-- Invariant of the ambient-estimation state: all five filter accumulators
and the tracked luminance lie in `[0, 1]`, and `maxClear ≥ 1`. -/
def AmbInv (s : ControllerState) : Prop :=
  FilterInv s.ambientRed ∧ FilterInv s.ambientGreen ∧ FilterInv s.ambientBlue ∧
  FilterInv s.ambientClear ∧ FilterInv s.luminance ∧
  0 ≤ s.ambientLuminance ∧ s.ambientLuminance ≤ 1 ∧ 1 ≤ s.maxClear

instance (s : ControllerState) : Decidable (AmbInv s) := by
  unfold AmbInv
  infer_instance

/-- Iterated `ambientLoop` over a list of (pending sample, time) poll events. -/
def runAmbient (s : ControllerState) (evs : List (Option RawSample × ℕ)) :
    ControllerState :=
  evs.foldl (fun st ev => ambientLoop st ev.1 ev.2) s

/-- A poll event of the ambient loop decrements the range tracker when the
resulting `maxClear` is strictly smaller. -/
def DecrementsAt (s : ControllerState) (ev : Option RawSample × ℕ) : Prop :=
  (ambientLoop s ev.1 ev.2).maxClear < s.maxClear

instance (s : ControllerState) (ev : Option RawSample × ℕ) :
    Decidable (DecrementsAt s ev) := by
  unfold DecrementsAt
  infer_instance

/-- Raw clear count consumed by a poll of the ambient loop: the fresh
sample's clear channel, or the stale global when no sample is pending. -/
def evClear (s : ControllerState) (sm : Option RawSample) : ℕ :=
  match sm with
  | some x => x.clear
  | none => s.clear

/-- State of the ambient loop after the new-reading block (the globals
updated from the fetched registers and pushed through `processSample`) and
before the range-decay check. -/
def ambientPre (s : ControllerState) (sm : Option RawSample) : ControllerState :=
  match sm with
  | some x => processSample { s with red := x.red, green := x.green, blue := x.blue, clear := x.clear }
  | none => s

/-- One debounced press/release pair of the button as the poll loop samples
it: the raw level goes LOW (sampled at `tq`, starting the debounce timer,
and at `tp`, committing the press once the level was stable longer than the
window) and back HIGH (sampled at `th` and at `tr`, committing the
release). -/
def pressRelease (s : ControllerState) (tq tp th tr : ℕ) : ControllerState :=
  buttonLoop (buttonLoop (buttonLoop (buttonLoop s false tq) false tp) true th) true tr

-- basic lemmas ---------------------------------------------------------------

theorem clamp_mem (x a b : ℚ) (hab : a ≤ b) :
    a ≤ clamp x a b ∧ clamp x a b ≤ b := by
  unfold clamp
  split_ifs <;> constructor <;> linarith

theorem interpQ_unit (a b t : ℚ) (ha0 : 0 ≤ a) (ha1 : a ≤ 1)
    (hb0 : 0 ≤ b) (hb1 : b ≤ 1) (ht0 : 0 ≤ t) (ht1 : t ≤ 1) :
    0 ≤ interpQ a b t ∧ interpQ a b t ≤ 1 := by
  unfold interpQ
  split_ifs
  · exact ⟨ha0, ha1⟩
  · exact ⟨hb0, hb1⟩
  · constructor
    · nlinarith [mul_nonneg ht0 hb0, mul_nonneg (sub_nonneg.mpr ht1) ha0]
    · nlinarith [mul_nonneg ht0 (sub_nonneg.mpr hb1),
        mul_nonneg (sub_nonneg.mpr ht1) (sub_nonneg.mpr ha1)]

theorem ratToByte_no_wrap (q : ℚ) (_h0 : 0 ≤ q) (h255 : q ≤ 255) :
    ratToByte q = Int.toNat ⌊q⌋ ∧ ratToByte q ≤ 255 := by
  have hfl : ⌊q⌋ ≤ 255 := by
    have := Int.floor_le_floor h255
    simpa using this
  have hnat : Int.toNat ⌊q⌋ ≤ 255 := by omega
  refine ⟨?_, ?_⟩
  · unfold ratToByte
    exact Nat.mod_eq_of_lt (by omega)
  · unfold ratToByte
    exact le_trans (Nat.le_of_lt_succ (Nat.lt_succ_of_le (Nat.mod_le _ _))) hnat

theorem interpColorRGB_one (c1 c2 : ColorRGB) : interpColorRGB c1 c2 1 = c2 := by
  cases c2
  unfold interpColorRGB interpByte
  norm_num

theorem fadeToRGB_eq_target (cur target : ColorRGB) (n : ℕ) (q : Bool)
    (h : 0 < n) : fadeToRGB cur target n q = target := by
  obtain ⟨m, rfl⟩ : ∃ m, n = m + 1 := ⟨n - 1, by omega⟩
  unfold fadeToRGB
  rw [List.range_succ, List.foldl_append, List.foldl_cons, List.foldl_nil]
  have ht : ((m : ℚ) + 1) / ((m + 1 : ℕ) : ℚ) = 1 := by
    push_cast
    rw [div_self]
    positivity
  simp only [ht]
  cases q <;> simp [interpColorRGB_one]

theorem LowPassFilter.update_unit (f : LowPassFilter) (x : ℚ)
    (ha : f.a = 4 / 10) (h0 : 0 ≤ f.y0) (h1 : f.y0 ≤ 1)
    (hx0 : 0 ≤ x) (hx1 : x ≤ 1) :
    0 ≤ (f.update x).y0 ∧ (f.update x).y0 ≤ 1 := by
  unfold LowPassFilter.update
  simp only [ha]
  constructor <;> nlinarith

-- preservation of the correction factors by every loop component -------------

theorem holdAction_corR (s : ControllerState) : (holdAction s).corR = s.corR := by
  simp only [holdAction]
  split_ifs <;> rfl

theorem holdAction_corG (s : ControllerState) : (holdAction s).corG = s.corG := by
  simp only [holdAction]
  split_ifs <;> rfl

theorem holdAction_corB (s : ControllerState) : (holdAction s).corB = s.corB := by
  simp only [holdAction]
  split_ifs <;> rfl

theorem releaseAction_corR (s : ControllerState) (n : ℕ) :
    (releaseAction s n).corR = s.corR := by
  simp only [releaseAction]
  split_ifs <;> rfl

theorem releaseAction_corG (s : ControllerState) (n : ℕ) :
    (releaseAction s n).corG = s.corG := by
  simp only [releaseAction]
  split_ifs <;> rfl

theorem releaseAction_corB (s : ControllerState) (n : ℕ) :
    (releaseAction s n).corB = s.corB := by
  simp only [releaseAction]
  split_ifs <;> rfl

theorem buttonLoop_corR (s : ControllerState) (rd : Bool) (n : ℕ) :
    (buttonLoop s rd n).corR = s.corR := by
  simp only [buttonLoop]
  split_ifs <;> simp [holdAction_corR, releaseAction_corR]

theorem buttonLoop_corG (s : ControllerState) (rd : Bool) (n : ℕ) :
    (buttonLoop s rd n).corG = s.corG := by
  simp only [buttonLoop]
  split_ifs <;> simp [holdAction_corG, releaseAction_corG]

theorem buttonLoop_corB (s : ControllerState) (rd : Bool) (n : ℕ) :
    (buttonLoop s rd n).corB = s.corB := by
  simp only [buttonLoop]
  split_ifs <;> simp [holdAction_corB, releaseAction_corB]

theorem switchLoop_corR (s : ControllerState) (rL rR : Bool) (n : ℕ) :
    (switchLoop s rL rR n).corR = s.corR := by
  simp only [switchLoop]
  split_ifs <;> rfl

theorem switchLoop_corG (s : ControllerState) (rL rR : Bool) (n : ℕ) :
    (switchLoop s rL rR n).corG = s.corG := by
  simp only [switchLoop]
  split_ifs <;> rfl

theorem switchLoop_corB (s : ControllerState) (rL rR : Bool) (n : ℕ) :
    (switchLoop s rL rR n).corB = s.corB := by
  simp only [switchLoop]
  split_ifs <;> rfl

theorem processSample_corR (s : ControllerState) :
    (processSample s).corR = s.corR := by
  simp only [processSample]
  split_ifs <;> rfl

theorem processSample_corG (s : ControllerState) :
    (processSample s).corG = s.corG := by
  simp only [processSample]
  split_ifs <;> rfl

theorem processSample_corB (s : ControllerState) :
    (processSample s).corB = s.corB := by
  simp only [processSample]
  split_ifs <;> rfl

theorem ambientLoop_corR (s : ControllerState) (sm : Option RawSample) (n : ℕ) :
    (ambientLoop s sm n).corR = s.corR := by
  simp only [ambientLoop]
  cases sm <;> split_ifs <;> simp [processSample_corR]

theorem ambientLoop_corG (s : ControllerState) (sm : Option RawSample) (n : ℕ) :
    (ambientLoop s sm n).corG = s.corG := by
  simp only [ambientLoop]
  cases sm <;> split_ifs <;> simp [processSample_corG]

theorem ambientLoop_corB (s : ControllerState) (sm : Option RawSample) (n : ℕ) :
    (ambientLoop s sm n).corB = s.corB := by
  simp only [ambientLoop]
  cases sm <;> split_ifs <;> simp [processSample_corB]

-- C8: correction factors ------------------------------------------------------

/-- C8: after `correctColor(avgR, avgG, avgB)` runs with positive averages,
the factors satisfy `corR * avgR = corG * avgG = corB * avgB`, each equal to
the mean `(avgR + avgG + avgB) / 3`; and no later poll iteration (`loop()`,
i.e. `switchLoop` + `buttonLoop` + `ambientLoop`) ever writes the factors
again. -/
theorem c8_correction_factors :
    (∀ (s : ControllerState) (r g b : ℚ), 0 < r → 0 < g → 0 < b →
      (correctColor s r g b).corR * r = (r + g + b) / 3 ∧
      (correctColor s r g b).corG * g = (r + g + b) / 3 ∧
      (correctColor s r g b).corB * b = (r + g + b) / 3) ∧
    (∀ (s : ControllerState) (inp : LoopInput),
      (loopStep s inp).corR = s.corR ∧ (loopStep s inp).corG = s.corG ∧
      (loopStep s inp).corB = s.corB) := by
  constructor
  · intro s r g b hr hg hb
    unfold correctColor
    refine ⟨?_, ?_, ?_⟩ <;> (field_simp; ring)
  · intro s inp
    unfold loopStep
    refine ⟨?_, ?_, ?_⟩
    · rw [ambientLoop_corR, buttonLoop_corR, switchLoop_corR]
    · rw [ambientLoop_corG, buttonLoop_corG, switchLoop_corG]
    · rw [ambientLoop_corB, buttonLoop_corB, switchLoop_corB]

/-- C8 witness at concrete inputs. -/
theorem c8_correction_factors_witness :
    (0 : ℚ) < 24 / 100 ∧
    (correctColor initState (24 / 100) (37 / 100) (39 / 100)).corR * (24 / 100) =
      ((24 : ℚ) / 100 + 37 / 100 + 39 / 100) / 3 :=
  ⟨by norm_num,
   (c8_correction_factors.1 initState (24 / 100) (37 / 100) (39 / 100)
      (by norm_num) (by norm_num) (by norm_num)).1⟩

-- C9: fatal sensor-init failure ------------------------------------------------

/-- C9: if `tcs.begin()` fails, `setup` ends in the halted state (the empty
`for (;;) {}`), and the halted state is absorbing under arbitrarily many
main-loop steps: no poll iteration ever executes (`loopStep` is applied only
in the `running` state, which is never reached), so the strip — written only
inside `setup` before the check and inside poll iterations — is never driven
again. -/
theorem c9_fatal_init_halts :
    (∀ buttonLow : Bool, (setup false buttonLow).1 = SysState.halted) ∧
    (∀ ins : List LoopInput, runSys SysState.halted ins = SysState.halted) := by
  constructor
  · intro bl
    rfl
  · intro ins
    induction ins with
    | nil => rfl
    | cons i t ih => simpa [runSys, sysStep] using ih

-- C7: HSV conversion range and hue boundaries ---------------------------------

theorem hsv2rgb_unit (h s v : ℚ) :
    (0 ≤ (hsv2rgb h s v).1 ∧ (hsv2rgb h s v).1 ≤ 1) ∧
    (0 ≤ (hsv2rgb h s v).2.1 ∧ (hsv2rgb h s v).2.1 ≤ 1) ∧
    (0 ≤ (hsv2rgb h s v).2.2 ∧ (hsv2rgb h s v).2.2 ≤ 1) := by
  unfold hsv2rgb
  refine ⟨?_, ?_, ?_⟩ <;> exact clamp_mem _ 0 1 (by norm_num)

/-- C7 counterexample: at the primary hue boundary `h = 1/6` with
`s = v = 1`, the conversion yields `(255, 255, 0)` — two channels at 255 —
so it is false that there is exactly one channel equal to 255 and exactly
one equal to 0. -/
theorem c7_exactly_one_counterexample :
    ¬ (countChannels (hsv1_to_rgb255 (1 / 6) 1 1) 255 = 1 ∧
       countChannels (hsv1_to_rgb255 (1 / 6) 1 1) 0 = 1) := by
  with_unfolding_all decide

/-- C7 (amended): for `h ∈ [0,1)`, `s, v ∈ [0,1]`, every scaled output
channel of the conversion lies in `[0, 255]` (so the narrowing into the
`byte` fields of `ColorRGB` does not wrap); and at every primary hue
boundary `k/6`, `hsv1_to_rgb255(k/6, 1, 1)` has at least one channel equal
to 255 and at least one equal to 0 (rather than exactly one of each: even
boundaries have two channels at 0, odd boundaries two at 255). -/
theorem c7_hsv_range_and_boundaries :
    (∀ h s v : ℚ, 0 ≤ h → h < 1 → 0 ≤ s → s ≤ 1 → 0 ≤ v → v ≤ 1 →
      (0 ≤ (hsv2rgb h s v).1 * 255 ∧ (hsv2rgb h s v).1 * 255 ≤ 255) ∧
      (0 ≤ (hsv2rgb h s v).2.1 * 255 ∧ (hsv2rgb h s v).2.1 * 255 ≤ 255) ∧
      (0 ≤ (hsv2rgb h s v).2.2 * 255 ∧ (hsv2rgb h s v).2.2 * 255 ≤ 255) ∧
      (hsv1_to_rgb255 h s v).r ≤ 255 ∧ (hsv1_to_rgb255 h s v).g ≤ 255 ∧
      (hsv1_to_rgb255 h s v).b ≤ 255) ∧
    (∀ k : ℕ, k < 6 →
      1 ≤ countChannels (hsv1_to_rgb255 ((k : ℚ) / 6) 1 1) 255 ∧
      1 ≤ countChannels (hsv1_to_rgb255 ((k : ℚ) / 6) 1 1) 0) := by
  constructor
  · intro h s v _ _ _ _ _ _
    obtain ⟨⟨r0, r1⟩, ⟨g0, g1⟩, ⟨b0, b1⟩⟩ := hsv2rgb_unit h s v
    refine ⟨⟨by positivity, by nlinarith⟩, ⟨by positivity, by nlinarith⟩,
      ⟨by positivity, by nlinarith⟩, ?_, ?_, ?_⟩ <;>
      · unfold hsv1_to_rgb255
        first
        | exact (ratToByte_no_wrap _ (by positivity) (by nlinarith)).2
  · intro k hk
    exact (by with_unfolding_all decide :
      ∀ k : ℕ, k < 6 →
        1 ≤ countChannels (hsv1_to_rgb255 ((k : ℚ) / 6) 1 1) 255 ∧
        1 ≤ countChannels (hsv1_to_rgb255 ((k : ℚ) / 6) 1 1) 0) k hk

/-- C7 witness at a concrete interior point of the domain. -/
theorem c7_hsv_range_witness :
    (0 : ℚ) ≤ 1 / 3 ∧ (1 : ℚ) / 3 < 1 ∧
    (0 ≤ (hsv2rgb (1 / 3) (1 / 2) (1 / 2)).1 * 255 ∧
     (hsv2rgb (1 / 3) (1 / 2) (1 / 2)).1 * 255 ≤ 255) :=
  ⟨by norm_num, by norm_num,
   ((c7_hsv_range_and_boundaries.1 (1 / 3) (1 / 2) (1 / 2)
      (by norm_num) (by norm_num) (by norm_num) (by norm_num)
      (by norm_num) (by norm_num)).1)⟩

-- hold action characterization -----------------------------------------------

theorem holdAction_case_brightness (s : ControllerState)
    (h : s.mode = Mode.AMBIENT ∨ s.adjustIndex = 0) :
    (holdAction s).brightness = (if s.brightness - 1 < 0 then 255 else s.brightness - 1) ∧
    (holdAction s).hue = s.hue ∧ (holdAction s).sat = s.sat ∧
    (holdAction s).mode = s.mode ∧ (holdAction s).adjustIndex = s.adjustIndex := by
  simp only [holdAction, if_pos h]
  split_ifs <;> exact ⟨rfl, rfl, rfl, rfl, rfl⟩

theorem holdAction_case_hue (s : ControllerState)
    (hm : s.mode = Mode.STATIC) (hi : s.adjustIndex = 1) :
    (holdAction s).hue = (if s.hue + 1 > 359 then 0 else s.hue + 1) ∧
    (holdAction s).brightness = s.brightness ∧ (holdAction s).sat = s.sat ∧
    (holdAction s).mode = s.mode ∧ (holdAction s).adjustIndex = s.adjustIndex := by
  have h1 : ¬ (s.mode = Mode.AMBIENT ∨ s.adjustIndex = 0) := by
    rintro (h | h) <;> simp_all
  simp only [holdAction, if_neg h1, if_pos hi]
  split_ifs <;> exact ⟨rfl, rfl, rfl, rfl, rfl⟩

theorem holdAction_case_sat (s : ControllerState)
    (hm : s.mode = Mode.STATIC) (hi : s.adjustIndex = 2) :
    (holdAction s).sat = (if s.sat - 1 < 0 then 100 else s.sat - 1) ∧
    (holdAction s).brightness = s.brightness ∧ (holdAction s).hue = s.hue ∧
    (holdAction s).mode = s.mode ∧ (holdAction s).adjustIndex = s.adjustIndex := by
  have h1 : ¬ (s.mode = Mode.AMBIENT ∨ s.adjustIndex = 0) := by
    rintro (h | h) <;> simp_all
  have h2 : ¬ s.adjustIndex = 1 := by omega
  simp only [holdAction, if_neg h1, if_neg h2, if_pos hi]
  split_ifs <;> exact ⟨rfl, rfl, rfl, rfl, rfl⟩

theorem holdAction_ranges (s : ControllerState)
    (hb0 : 0 ≤ s.brightness) (hb1 : s.brightness ≤ 255)
    (hh0 : 0 ≤ s.hue) (hh1 : s.hue ≤ 359)
    (hq0 : 0 ≤ s.sat) (hq1 : s.sat ≤ 100) :
    (0 ≤ (holdAction s).brightness ∧ (holdAction s).brightness ≤ 255) ∧
    (0 ≤ (holdAction s).hue ∧ (holdAction s).hue ≤ 359) ∧
    (0 ≤ (holdAction s).sat ∧ (holdAction s).sat ≤ 100) := by
  simp only [holdAction]
  split_ifs <;> refine ⟨⟨?_, ?_⟩, ⟨?_, ?_⟩, ⟨?_, ?_⟩⟩ <;> simp <;> omega

theorem holdAction_mode (s : ControllerState) : (holdAction s).mode = s.mode := by
  simp only [holdAction]
  split_ifs <;> rfl

theorem holdAction_adjustIndex (s : ControllerState) :
    (holdAction s).adjustIndex = s.adjustIndex := by
  simp only [holdAction]
  split_ifs <;> rfl

theorem holdAction_pushTime (s : ControllerState) :
    (holdAction s).pushTime = s.pushTime := by
  simp only [holdAction]
  split_ifs <;> rfl

theorem holdAction_db (s : ControllerState) : (holdAction s).db = s.db := by
  simp only [holdAction]
  split_ifs <;> rfl

theorem buttonLoop_stable_low (s : ControllerState) (now : ℕ)
    (hst : (debounceInput s.db false now).1.inputState = false)
    (hheld : now - s.pushTime > 1000) :
    (buttonLoop s false now).brightness =
      (holdAction { s with db := (debounceInput s.db false now).1 }).brightness ∧
    (buttonLoop s false now).hue =
      (holdAction { s with db := (debounceInput s.db false now).1 }).hue ∧
    (buttonLoop s false now).sat =
      (holdAction { s with db := (debounceInput s.db false now).1 }).sat := by
  simp only [buttonLoop, hst, hheld]
  split_ifs <;> simp_all

-- C5: hold sweep with wraparound ----------------------------------------------

/-- C5: while the debounced button state is stable LOW and the held duration
`now - pushTime` exceeds 1000 ms, one `buttonLoop` poll sweeps exactly the
selected parameter by one step with wraparound — brightness (255-range) in
Ambient mode or Static mode with `adjustIndex = 0`, hue (wrapping 359 → 0)
for `adjustIndex = 1`, saturation (wrapping 0 → 100) for `adjustIndex = 2` —
and the ranges brightness ∈ [0,255], hue ∈ [0,359], sat ∈ [0,100] are
preserved. -/
theorem c5_hold_sweep (s : ControllerState) (now : ℕ)
    (hst : (debounceInput s.db false now).1.inputState = false)
    (hheld : now - s.pushTime > 1000)
    (hb0 : 0 ≤ s.brightness) (hb1 : s.brightness ≤ 255)
    (hh0 : 0 ≤ s.hue) (hh1 : s.hue ≤ 359)
    (hq0 : 0 ≤ s.sat) (hq1 : s.sat ≤ 100) :
    ((s.mode = Mode.AMBIENT ∨ s.adjustIndex = 0) →
      (buttonLoop s false now).brightness =
        (if s.brightness - 1 < 0 then 255 else s.brightness - 1) ∧
      (buttonLoop s false now).hue = s.hue ∧
      (buttonLoop s false now).sat = s.sat) ∧
    ((s.mode = Mode.STATIC ∧ s.adjustIndex = 1) →
      (buttonLoop s false now).hue = (if s.hue + 1 > 359 then 0 else s.hue + 1) ∧
      (buttonLoop s false now).brightness = s.brightness ∧
      (buttonLoop s false now).sat = s.sat) ∧
    ((s.mode = Mode.STATIC ∧ s.adjustIndex = 2) →
      (buttonLoop s false now).sat = (if s.sat - 1 < 0 then 100 else s.sat - 1) ∧
      (buttonLoop s false now).brightness = s.brightness ∧
      (buttonLoop s false now).hue = s.hue) ∧
    (0 ≤ (buttonLoop s false now).brightness ∧ (buttonLoop s false now).brightness ≤ 255 ∧
     0 ≤ (buttonLoop s false now).hue ∧ (buttonLoop s false now).hue ≤ 359 ∧
     0 ≤ (buttonLoop s false now).sat ∧ (buttonLoop s false now).sat ≤ 100) := by
  obtain ⟨eb, eh, eq⟩ := buttonLoop_stable_low s now hst hheld
  refine ⟨?_, ?_, ?_, ?_⟩
  · intro h
    obtain ⟨b1, b2, b3, _, _⟩ :=
      holdAction_case_brightness { s with db := (debounceInput s.db false now).1 } h
    exact ⟨eb.trans b1, eh.trans b2, eq.trans b3⟩
  · rintro ⟨hm, hi⟩
    obtain ⟨b1, b2, b3, _, _⟩ :=
      holdAction_case_hue { s with db := (debounceInput s.db false now).1 } hm hi
    exact ⟨eh.trans b1, eb.trans b2, eq.trans b3⟩
  · rintro ⟨hm, hi⟩
    obtain ⟨b1, b2, b3, _, _⟩ :=
      holdAction_case_sat { s with db := (debounceInput s.db false now).1 } hm hi
    exact ⟨eq.trans b1, eb.trans b2, eh.trans b3⟩
  · obtain ⟨⟨r1, r2⟩, ⟨r3, r4⟩, ⟨r5, r6⟩⟩ :=
      holdAction_ranges { s with db := (debounceInput s.db false now).1 }
        hb0 hb1 hh0 hh1 hq0 hq1
    rw [eb, eh, eq]
    exact ⟨r1, r2, r3, r4, r5, r6⟩

/-- C5 witness: a stable-LOW poll at 2000 ms in Ambient mode decrements the
brightness from 192 to 191. -/
theorem c5_hold_sweep_witness :
    (debounceInput ({ initState with mode := Mode.AMBIENT, db := ⟨false, false, 0⟩ } : ControllerState).db false 2000).1.inputState = false ∧
    (buttonLoop { initState with mode := Mode.AMBIENT, db := ⟨false, false, 0⟩ } false 2000).brightness =
      (if ({ initState with mode := Mode.AMBIENT, db := ⟨false, false, 0⟩ } : ControllerState).brightness - 1 < 0
       then 255
       else ({ initState with mode := Mode.AMBIENT, db := ⟨false, false, 0⟩ } : ControllerState).brightness - 1) :=
  ⟨by with_unfolding_all decide,
   ((c5_hold_sweep { initState with mode := Mode.AMBIENT, db := ⟨false, false, 0⟩ } 2000
      (by with_unfolding_all decide) (by with_unfolding_all decide)
      (by with_unfolding_all decide) (by with_unfolding_all decide)
      (by with_unfolding_all decide) (by with_unfolding_all decide)
      (by with_unfolding_all decide) (by with_unfolding_all decide)).1
      (Or.inl rfl)).1⟩

-- debouncer and release-path characterization --------------------------------

theorem debounceInput_cases (s : DebounceState) (r : Bool) (n : ℕ) :
    debounceInput s r n =
      if n - (if r ≠ s.lastReading then n else s.lastDebounceTime) > debounceDelay ∧ r ≠ s.inputState
      then (⟨r, r, if r ≠ s.lastReading then n else s.lastDebounceTime⟩, true)
      else (⟨r, s.inputState, if r ≠ s.lastReading then n else s.lastDebounceTime⟩, false) :=
  rfl

theorem debounceInput_committed (s : DebounceState) (r : Bool) (n : ℕ)
    (h : (debounceInput s r n).2 = true) :
    (debounceInput s r n).1.inputState = r ∧ s.inputState ≠ r := by
  rw [debounceInput_cases] at h ⊢
  split_ifs at h ⊢ <;> (refine ⟨rfl, fun he => ?_⟩; simp_all)

theorem buttonLoop_release_eq (s : ControllerState) (now : ℕ)
    (hrel : (debounceInput s.db true now).2 = true) :
    buttonLoop s true now =
      releaseAction { s with db := (debounceInput s.db true now).1 } now := by
  have hst := (debounceInput_committed s.db true now hrel).1
  simp only [buttonLoop, hrel, hst]
  norm_num

theorem buttonLoop_press_char (s : ControllerState) (tp : ℕ)
    (hpr : (debounceInput s.db false tp).2 = true) :
    (buttonLoop s false tp).mode = s.mode ∧
    (buttonLoop s false tp).adjustIndex = s.adjustIndex ∧
    (buttonLoop s false tp).pushTime = tp ∧
    (buttonLoop s false tp).db = (debounceInput s.db false tp).1 := by
  have hst := (debounceInput_committed s.db false tp hpr).1
  simp only [buttonLoop, hpr, hst]
  split_ifs <;>
    simp_all [holdAction_mode, holdAction_adjustIndex, holdAction_pushTime, holdAction_db]

theorem buttonLoop_no_change (s : ControllerState) (rd : Bool) (now : ℕ)
    (hch : (debounceInput s.db rd now).2 = false) :
    (buttonLoop s rd now).mode = s.mode ∧
    (buttonLoop s rd now).adjustIndex = s.adjustIndex ∧
    (buttonLoop s rd now).pushTime = s.pushTime ∧
    (buttonLoop s rd now).db = (debounceInput s.db rd now).1 := by
  simp only [buttonLoop, hch]
  split_ifs <;>
    first
      | simp_all [holdAction_mode, holdAction_adjustIndex, holdAction_pushTime, holdAction_db]
      | rfl

theorem releaseAction_short_static (s : ControllerState) (now : ℕ)
    (h1 : now - s.pushTime < 300) (hm : s.mode = Mode.STATIC) :
    (releaseAction s now).adjustIndex = (s.adjustIndex + 1) % 3 ∧
    (releaseAction s now).mode = s.mode ∧
    (releaseAction s now).hue = s.hue ∧ (releaseAction s now).sat = s.sat ∧
    (releaseAction s now).brightness = s.brightness ∧
    (releaseAction s now).ambientColor = s.ambientColor ∧
    (releaseAction s now).sensorEnabled = s.sensorEnabled ∧
    (releaseAction s now).pushTime = s.pushTime ∧
    (releaseAction s now).db = s.db := by
  simp only [releaseAction, if_pos h1, if_pos hm]
  simp

theorem releaseAction_short_ambient (s : ControllerState) (now : ℕ)
    (h1 : now - s.pushTime < 300) (hm : s.mode = Mode.AMBIENT) :
    releaseAction s now = s := by
  have hns : ¬ s.mode = Mode.STATIC := by simp [hm]
  simp only [releaseAction, if_pos h1, if_neg hns]

theorem releaseAction_medium_static (s : ControllerState) (now : ℕ)
    (h1 : ¬ now - s.pushTime < 300) (h2 : now - s.pushTime < 1000)
    (hm : s.mode = Mode.STATIC) :
    releaseAction s now =
      { s with mode := Mode.AMBIENT, sensorEnabled := true,
               ambientColor := s.adjustedColor } := by
  simp only [releaseAction, if_neg h1, if_pos h2, hm, toggleMode]
  simp

theorem releaseAction_medium_ambient (s : ControllerState) (now : ℕ)
    (h1 : ¬ now - s.pushTime < 300) (h2 : now - s.pushTime < 1000)
    (hm : s.mode = Mode.AMBIENT) :
    releaseAction s now =
      { s with mode := Mode.STATIC, sensorEnabled := false,
               currentColor := s.adjustedColor, adjustIndex := 0 } := by
  simp only [releaseAction, if_neg h1, if_pos h2, hm, toggleMode]
  rw [fadeToRGB_eq_target _ _ 100 false (by norm_num)]
  simp

theorem releaseAction_long (s : ControllerState) (now : ℕ)
    (h1 : ¬ now - s.pushTime < 300) (h2 : ¬ now - s.pushTime < 1000) :
    releaseAction s now = s := by
  simp only [releaseAction, if_neg h1, if_neg h2]

theorem pressRelease_short_static (s : ControllerState) (tq tp th tr : ℕ)
    (hdb1 : s.db.lastReading = true) (hdb2 : s.db.inputState = true)
    (h1 : tp - tq > 50) (h2 : tr - th > 50) (h3 : tr - tp < 300)
    (hm : s.mode = Mode.STATIC) :
    (pressRelease s tq tp th tr).adjustIndex = (s.adjustIndex + 1) % 3 ∧
    (pressRelease s tq tp th tr).mode = Mode.STATIC ∧
    (pressRelease s tq tp th tr).db = ⟨true, true, th⟩ := by
  have e1 : debounceInput s.db false tq = (⟨false, true, tq⟩, false) := by
    rw [debounceInput_cases]
    simp [hdb1, hdb2]
  obtain ⟨m1, a1, p1, d1⟩ := buttonLoop_no_change s false tq (by simp [e1])
  rw [e1] at d1
  have e2 : debounceInput (buttonLoop s false tq).db false tp =
      (⟨false, false, tq⟩, true) := by
    rw [d1, debounceInput_cases]
    simp [debounceDelay, h1]
  obtain ⟨m2, a2, p2, d2⟩ := buttonLoop_press_char (buttonLoop s false tq) tp (by simp [e2])
  rw [e2] at d2
  have e3 : debounceInput (buttonLoop (buttonLoop s false tq) false tp).db true th =
      (⟨true, false, th⟩, false) := by
    rw [d2, debounceInput_cases]
    simp
  obtain ⟨m3, a3, p3, d3⟩ :=
    buttonLoop_no_change (buttonLoop (buttonLoop s false tq) false tp) true th (by simp [e3])
  rw [e3] at d3
  have e4 : debounceInput (buttonLoop (buttonLoop (buttonLoop s false tq) false tp) true th).db true tr =
      (⟨true, true, th⟩, true) := by
    rw [d3, debounceInput_cases]
    simp [debounceDelay, h2]
  have hrel :
      buttonLoop (buttonLoop (buttonLoop (buttonLoop s false tq) false tp) true th) true tr =
      releaseAction { (buttonLoop (buttonLoop (buttonLoop s false tq) false tp) true th) with
          db := ⟨true, true, th⟩ } tr := by
    have hx := buttonLoop_release_eq
      (buttonLoop (buttonLoop (buttonLoop s false tq) false tp) true th) tr (by simp [e4])
    rw [e4] at hx
    exact hx
  have hpush : (buttonLoop (buttonLoop (buttonLoop s false tq) false tp) true th).pushTime = tp := by
    rw [p3, p2]
  have hmode : (buttonLoop (buttonLoop (buttonLoop s false tq) false tp) true th).mode = Mode.STATIC := by
    rw [m3, m2, m1, hm]
  have hadj : (buttonLoop (buttonLoop (buttonLoop s false tq) false tp) true th).adjustIndex = s.adjustIndex := by
    rw [a3, a2, a1]
  unfold pressRelease
  rw [hrel]
  obtain ⟨x1, x2, _, _, _, _, _, _, x9⟩ :=
    releaseAction_short_static
      { (buttonLoop (buttonLoop (buttonLoop s false tq) false tp) true th) with db := ⟨true, true, th⟩ }
      tr (by simpa [hpush] using h3) (by simpa using hmode)
  refine ⟨?_, ?_, ?_⟩
  · rw [x1]
    simp [hadj]
  · rw [x2]
    simpa using hmode
  · rw [x9]

-- C6: short-press parameter cycling -------------------------------------------

/-- C6: a debounced release with held duration below the 300 ms short
threshold advances `adjustIndex` to `(adjustIndex + 1) % 3` in Static mode,
leaving mode, hue, sat and brightness untouched, and in Ambient mode changes
nothing; three consecutive sampled press/release pairs in Static mode cycle
`adjustIndex` back to its starting value. -/
theorem c6_short_press_cycle :
    (∀ (s : ControllerState) (now : ℕ),
      (debounceInput s.db true now).2 = true → now - s.pushTime < 300 →
      (s.mode = Mode.STATIC →
        (buttonLoop s true now).adjustIndex = (s.adjustIndex + 1) % 3 ∧
        (buttonLoop s true now).mode = Mode.STATIC ∧
        (buttonLoop s true now).hue = s.hue ∧
        (buttonLoop s true now).sat = s.sat ∧
        (buttonLoop s true now).brightness = s.brightness) ∧
      (s.mode = Mode.AMBIENT →
        (buttonLoop s true now).adjustIndex = s.adjustIndex ∧
        (buttonLoop s true now).mode = Mode.AMBIENT ∧
        (buttonLoop s true now).hue = s.hue ∧
        (buttonLoop s true now).sat = s.sat ∧
        (buttonLoop s true now).brightness = s.brightness)) ∧
    (∀ (s : ControllerState) (tq1 tp1 th1 tr1 tq2 tp2 th2 tr2 tq3 tp3 th3 tr3 : ℕ),
      s.db.lastReading = true → s.db.inputState = true →
      s.mode = Mode.STATIC → s.adjustIndex < 3 →
      tp1 - tq1 > 50 → tr1 - th1 > 50 → tr1 - tp1 < 300 →
      tp2 - tq2 > 50 → tr2 - th2 > 50 → tr2 - tp2 < 300 →
      tp3 - tq3 > 50 → tr3 - th3 > 50 → tr3 - tp3 < 300 →
      (pressRelease (pressRelease (pressRelease s tq1 tp1 th1 tr1) tq2 tp2 th2 tr2)
          tq3 tp3 th3 tr3).adjustIndex = s.adjustIndex) := by
  constructor
  · intro s now hrel hd
    rw [buttonLoop_release_eq s now hrel]
    constructor
    · intro hm
      obtain ⟨x1, x2, x3, x4, x5, _, _, _, _⟩ :=
        releaseAction_short_static { s with db := (debounceInput s.db true now).1 } now hd hm
      exact ⟨x1, by rw [x2]; exact hm, x3, x4, x5⟩
    · intro hm
      rw [releaseAction_short_ambient { s with db := (debounceInput s.db true now).1 } now hd hm]
      exact ⟨rfl, hm, rfl, rfl, rfl⟩
  · intro s tq1 tp1 th1 tr1 tq2 tp2 th2 tr2 tq3 tp3 th3 tr3
    intro hdb1 hdb2 hm hlt ha1 hb1 hc1 ha2 hb2 hc2 ha3 hb3 hc3
    obtain ⟨j1, j2, j3⟩ := pressRelease_short_static s tq1 tp1 th1 tr1 hdb1 hdb2 ha1 hb1 hc1 hm
    obtain ⟨k1, k2, k3⟩ := pressRelease_short_static (pressRelease s tq1 tp1 th1 tr1)
      tq2 tp2 th2 tr2 (by rw [j3]) (by rw [j3]) ha2 hb2 hc2 j2
    obtain ⟨l1, l2, l3⟩ := pressRelease_short_static
      (pressRelease (pressRelease s tq1 tp1 th1 tr1) tq2 tp2 th2 tr2)
      tq3 tp3 th3 tr3 (by rw [k3]) (by rw [k3]) ha3 hb3 hc3 k2
    rw [l1, k1, j1]
    omega

/-- C6 witness: from the initial state, three concrete sampled press/release
pairs cycle `adjustIndex` 0 → 1 → 2 → 0. -/
theorem c6_short_press_cycle_witness :
    initState.db.lastReading = true ∧ initState.mode = Mode.STATIC ∧
    (pressRelease (pressRelease (pressRelease initState 0 60 70 130) 1000 1060 1070 1130)
        2000 2060 2070 2130).adjustIndex = initState.adjustIndex :=
  ⟨rfl, rfl,
   c6_short_press_cycle.2 initState 0 60 70 130 1000 1060 1070 1130 2000 2060 2070 2130
     rfl rfl rfl (by with_unfolding_all decide)
     (by norm_num) (by norm_num) (by norm_num) (by norm_num) (by norm_num)
     (by norm_num) (by norm_num) (by norm_num) (by norm_num)⟩

-- C1: release classification --------------------------------------------------

/-- C1: a debounced button release is classified purely by the held duration
`now - pushTime`: 100 ms triggers only the short-press action (parameter-index
cycling in Static mode, nothing in Ambient mode); 600 ms toggles the mode —
entering Ambient enables the sensor and seeds `ambientColor = adjustedColor`,
leaving Ambient disables the sensor, fades the strip to `adjustedColor` and
resets `adjustIndex` to 0; 1500 ms performs no release action at all (only
the debouncer state advances). -/
theorem c1_release_classification (s : ControllerState) (now : ℕ)
    (hrel : (debounceInput s.db true now).2 = true) :
    (now - s.pushTime = 100 →
      (buttonLoop s true now).mode = s.mode ∧
      (buttonLoop s true now).sensorEnabled = s.sensorEnabled ∧
      (buttonLoop s true now).ambientColor = s.ambientColor ∧
      (buttonLoop s true now).hue = s.hue ∧
      (buttonLoop s true now).sat = s.sat ∧
      (buttonLoop s true now).brightness = s.brightness ∧
      (s.mode = Mode.STATIC →
        (buttonLoop s true now).adjustIndex = (s.adjustIndex + 1) % 3) ∧
      (s.mode = Mode.AMBIENT →
        buttonLoop s true now = { s with db := (debounceInput s.db true now).1 })) ∧
    (now - s.pushTime = 600 →
      (buttonLoop s true now).mode = toggleMode s.mode ∧
      (s.mode = Mode.STATIC →
        (buttonLoop s true now).mode = Mode.AMBIENT ∧
        (buttonLoop s true now).sensorEnabled = true ∧
        (buttonLoop s true now).ambientColor = s.adjustedColor ∧
        (buttonLoop s true now).adjustIndex = s.adjustIndex ∧
        (buttonLoop s true now).hue = s.hue ∧
        (buttonLoop s true now).sat = s.sat ∧
        (buttonLoop s true now).brightness = s.brightness) ∧
      (s.mode = Mode.AMBIENT →
        (buttonLoop s true now).mode = Mode.STATIC ∧
        (buttonLoop s true now).sensorEnabled = false ∧
        (buttonLoop s true now).currentColor = s.adjustedColor ∧
        (buttonLoop s true now).adjustIndex = 0 ∧
        (buttonLoop s true now).hue = s.hue ∧
        (buttonLoop s true now).sat = s.sat ∧
        (buttonLoop s true now).brightness = s.brightness)) ∧
    (now - s.pushTime = 1500 →
      buttonLoop s true now = { s with db := (debounceInput s.db true now).1 }) := by
  rw [buttonLoop_release_eq s now hrel]
  have hsm : s.mode = Mode.STATIC ∨ s.mode = Mode.AMBIENT := by
    cases s.mode <;> simp
  refine ⟨?_, ?_, ?_⟩
  · intro hd
    have h1 : now - s.pushTime < 300 := by omega
    rcases hsm with hm | hm
    · obtain ⟨x1, x2, x3, x4, x5, x6, x7, _, _⟩ :=
        releaseAction_short_static { s with db := (debounceInput s.db true now).1 } now h1 hm
      exact ⟨x2, x7, x6, x3, x4, x5, fun _ => x1,
        fun hc => by rw [hm] at hc; exact Mode.noConfusion hc⟩
    · rw [releaseAction_short_ambient { s with db := (debounceInput s.db true now).1 } now h1 hm]
      exact ⟨rfl, rfl, rfl, rfl, rfl, rfl,
        fun hc => by rw [hm] at hc; exact Mode.noConfusion hc, fun _ => rfl⟩
  · intro hd
    have h1 : ¬ now - s.pushTime < 300 := by omega
    have h2 : now - s.pushTime < 1000 := by omega
    rcases hsm with hm | hm
    · rw [releaseAction_medium_static { s with db := (debounceInput s.db true now).1 } now h1 h2 hm]
      exact ⟨by rw [hm]; rfl, fun _ => ⟨rfl, rfl, rfl, rfl, rfl, rfl, rfl⟩,
        fun hc => by rw [hm] at hc; exact Mode.noConfusion hc⟩
    · rw [releaseAction_medium_ambient { s with db := (debounceInput s.db true now).1 } now h1 h2 hm]
      exact ⟨by rw [hm]; rfl, fun hc => by rw [hm] at hc; exact Mode.noConfusion hc,
        fun _ => ⟨rfl, rfl, rfl, rfl, rfl, rfl, rfl⟩⟩
  · intro hd
    have h1 : ¬ now - s.pushTime < 300 := by omega
    have h2 : ¬ now - s.pushTime < 1000 := by omega
    rw [releaseAction_long { s with db := (debounceInput s.db true now).1 } now h1 h2]

/-- C1 witness: a committed release at 100 ms held duration in the initial
(Static) state advances `adjustIndex` and leaves the mode unchanged. -/
theorem c1_release_classification_witness :
    ((debounceInput ({ initState with db := ⟨true, false, 10⟩ } : ControllerState).db true 100).2 = true) ∧
    (buttonLoop { initState with db := ⟨true, false, 10⟩ } true 100).mode =
      ({ initState with db := ⟨true, false, 10⟩ } : ControllerState).mode :=
  ⟨by with_unfolding_all decide,
   ((c1_release_classification { initState with db := ⟨true, false, 10⟩ } 100
      (by with_unfolding_all decide)).1 (by with_unfolding_all decide)).1⟩

-- ambient estimator characterization -----------------------------------------

theorem interpQ_mid (a b : ℚ) : interpQ a b (1 / 1000) = a + 1 / 1000 * (b - a) := by
  unfold interpQ
  norm_num

theorem ambientLoop_filters (s : ControllerState) (sm : RawSample) (now : ℕ)
    (hmode : s.mode = Mode.AMBIENT) :
    (ambientLoop s (some sm) now).ambientRed =
      (processSample { s with red := sm.red, green := sm.green, blue := sm.blue, clear := sm.clear }).ambientRed ∧
    (ambientLoop s (some sm) now).ambientGreen =
      (processSample { s with red := sm.red, green := sm.green, blue := sm.blue, clear := sm.clear }).ambientGreen ∧
    (ambientLoop s (some sm) now).ambientBlue =
      (processSample { s with red := sm.red, green := sm.green, blue := sm.blue, clear := sm.clear }).ambientBlue ∧
    (ambientLoop s (some sm) now).ambientClear =
      (processSample { s with red := sm.red, green := sm.green, blue := sm.blue, clear := sm.clear }).ambientClear ∧
    (ambientLoop s (some sm) now).luminance =
      (processSample { s with red := sm.red, green := sm.green, blue := sm.blue, clear := sm.clear }).luminance ∧
    (ambientLoop s (some sm) now).ambientLuminance =
      (processSample { s with red := sm.red, green := sm.green, blue := sm.blue, clear := sm.clear }).ambientLuminance := by
  simp only [ambientLoop, hmode]
  norm_num
  split_ifs <;> simp

theorem processSample_invalid (s : ControllerState)
    (hg : ¬ (s.clear > 0 ∧ s.red > 1 ∧ s.green > 1 ∧ s.blue > 1)) :
    (processSample s).ambientLuminance =
      interpQ s.ambientLuminance ((s.brightness : ℚ) / 255) (1 / 1000) ∧
    (processSample s).ambientRed = s.ambientRed.update ((processSample s).ambientLuminance) ∧
    (processSample s).ambientGreen = s.ambientGreen.update ((processSample s).ambientLuminance) ∧
    (processSample s).ambientBlue = s.ambientBlue.update ((processSample s).ambientLuminance) ∧
    (processSample s).ambientClear = s.ambientClear ∧
    (processSample s).luminance = s.luminance ∧
    (processSample s).maxClear = s.maxClear := by
  unfold processSample
  rw [if_neg hg]
  exact ⟨rfl, rfl, rfl, rfl, rfl, rfl, rfl⟩

theorem processSample_valid (s : ControllerState)
    (hg : s.clear > 0 ∧ s.red > 1 ∧ s.green > 1 ∧ s.blue > 1) :
    (processSample s).ambientRed =
      s.ambientRed.update (clamp ((s.red : ℚ) / (s.clear : ℚ) * s.corR) 0 1) ∧
    (processSample s).ambientGreen =
      s.ambientGreen.update (clamp ((s.green : ℚ) / (s.clear : ℚ) * s.corG) 0 1) ∧
    (processSample s).ambientBlue =
      s.ambientBlue.update (clamp ((s.blue : ℚ) / (s.clear : ℚ) * s.corB) 0 1) ∧
    (processSample s).ambientClear =
      s.ambientClear.update ((s.clear : ℚ) /
        ((if s.clear > s.maxClear then s.clear else s.maxClear : ℕ) : ℚ)) ∧
    (processSample s).luminance =
      s.luminance.update (2126 / 10000 * clamp ((s.red : ℚ) / (s.clear : ℚ) * s.corR) 0 1 +
        7152 / 10000 * clamp ((s.green : ℚ) / (s.clear : ℚ) * s.corG) 0 1 +
        722 / 10000 * clamp ((s.blue : ℚ) / (s.clear : ℚ) * s.corB) 0 1) ∧
    (processSample s).ambientLuminance = (processSample s).luminance.y0 ∧
    (processSample s).maxClear = (if s.clear > s.maxClear then s.clear else s.maxClear) := by
  unfold processSample
  rw [if_pos hg]
  by_cases hc : s.clear > s.maxClear
  · rw [if_pos hc]
    simp [hc]
  · rw [if_neg hc]
    have hc2 : ¬ s.maxClear < s.clear := hc
    simp [hc2]

-- C4: noise gate --------------------------------------------------------------

/-- C4: on a poll with a fresh sensor sample in Ambient mode, the color
filters are fed from the raw channels only when the noise gate
`clear > 0 ∧ red > 1 ∧ green > 1 ∧ blue > 1` passes; when it fails, the raw
color is discarded: `ambientLuminance` moves one interpolation step of
factor 0.001 toward `brightness / 255` and that single value is pushed into
the red, green and blue filters (the clear filter and the luminance filter
are left untouched). -/
theorem c4_noise_gate (s : ControllerState) (sm : RawSample) (now : ℕ)
    (hmode : s.mode = Mode.AMBIENT) :
    (¬ (sm.clear > 0 ∧ sm.red > 1 ∧ sm.green > 1 ∧ sm.blue > 1) →
      (ambientLoop s (some sm) now).ambientLuminance =
        s.ambientLuminance + 1 / 1000 * ((s.brightness : ℚ) / 255 - s.ambientLuminance) ∧
      (ambientLoop s (some sm) now).ambientRed =
        s.ambientRed.update ((ambientLoop s (some sm) now).ambientLuminance) ∧
      (ambientLoop s (some sm) now).ambientGreen =
        s.ambientGreen.update ((ambientLoop s (some sm) now).ambientLuminance) ∧
      (ambientLoop s (some sm) now).ambientBlue =
        s.ambientBlue.update ((ambientLoop s (some sm) now).ambientLuminance) ∧
      (ambientLoop s (some sm) now).ambientClear = s.ambientClear ∧
      (ambientLoop s (some sm) now).luminance = s.luminance) ∧
    ((sm.clear > 0 ∧ sm.red > 1 ∧ sm.green > 1 ∧ sm.blue > 1) →
      (ambientLoop s (some sm) now).ambientRed =
        s.ambientRed.update (clamp ((sm.red : ℚ) / (sm.clear : ℚ) * s.corR) 0 1) ∧
      (ambientLoop s (some sm) now).ambientGreen =
        s.ambientGreen.update (clamp ((sm.green : ℚ) / (sm.clear : ℚ) * s.corG) 0 1) ∧
      (ambientLoop s (some sm) now).ambientBlue =
        s.ambientBlue.update (clamp ((sm.blue : ℚ) / (sm.clear : ℚ) * s.corB) 0 1)) := by
  obtain ⟨f1, f2, f3, f4, f5, f6⟩ := ambientLoop_filters s sm now hmode
  constructor
  · intro hg
    obtain ⟨i1, i2, i3, i4, i5, i6, _⟩ :=
      processSample_invalid
        { s with red := sm.red, green := sm.green, blue := sm.blue, clear := sm.clear } hg
    refine ⟨?_, ?_, ?_, ?_, ?_, ?_⟩
    · rw [f6, i1, interpQ_mid]
    · rw [f1, f6, i2]
    · rw [f2, f6, i3]
    · rw [f3, f6, i4]
    · rw [f4, i5]
    · rw [f5, i6]
  · intro hg
    obtain ⟨v1, v2, v3, _, _, _, _⟩ :=
      processSample_valid
        { s with red := sm.red, green := sm.green, blue := sm.blue, clear := sm.clear } hg
    exact ⟨by rw [f1, v1], by rw [f2, v2], by rw [f3, v3]⟩

/-- C4 witness: an all-zero sample fails the gate; from the initial state in
Ambient mode the tracked luminance takes one 0.001 step toward
`brightness / 255`. -/
theorem c4_noise_gate_witness :
    ({ initState with mode := Mode.AMBIENT } : ControllerState).mode = Mode.AMBIENT ∧
    (ambientLoop { initState with mode := Mode.AMBIENT } (some ⟨0, 0, 0, 0⟩) 0).ambientLuminance =
      ({ initState with mode := Mode.AMBIENT } : ControllerState).ambientLuminance +
        1 / 1000 * ((({ initState with mode := Mode.AMBIENT } : ControllerState).brightness : ℚ) / 255 -
          ({ initState with mode := Mode.AMBIENT } : ControllerState).ambientLuminance) :=
  ⟨rfl,
   ((c4_noise_gate { initState with mode := Mode.AMBIENT } ⟨0, 0, 0, 0⟩ 0 rfl).1
      (by decide)).1⟩

-- filter-range invariant machinery -------------------------------------------

theorem ratToByte_le (q : ℚ) : ratToByte q ≤ 255 := by
  unfold ratToByte
  omega

theorem LowPassFilter.update_a (f : LowPassFilter) (x : ℚ) : (f.update x).a = f.a := rfl

theorem brightnessQ_unit (b : ℤ) (h0 : 0 ≤ b) (h1 : b ≤ 255) :
    0 ≤ (b : ℚ) / 255 ∧ (b : ℚ) / 255 ≤ 1 := by
  have hb : (0 : ℚ) ≤ (b : ℚ) := by exact_mod_cast h0
  have hb' : (b : ℚ) ≤ 255 := by exact_mod_cast h1
  constructor
  · exact div_nonneg hb (by norm_num)
  · rw [div_le_one (by norm_num)]
    exact hb'

theorem clearRatio_unit (clr mc : ℕ) (hmc : 1 ≤ mc) (hle : clr ≤ mc) :
    0 ≤ (clr : ℚ) / (mc : ℚ) ∧ (clr : ℚ) / (mc : ℚ) ≤ 1 := by
  have h1 : (0 : ℚ) < (mc : ℚ) := by exact_mod_cast hmc
  constructor
  · positivity
  · rw [div_le_one h1]
    exact_mod_cast hle

theorem processSample_AmbInv (s : ControllerState) (hI : AmbInv s)
    (hb0 : 0 ≤ s.brightness) (hb1 : s.brightness ≤ 255) :
    AmbInv (processSample s) := by
  obtain ⟨hR, hG, hB, hC, hL, hal0, hal1, hmc⟩ := hI
  by_cases hg : s.clear > 0 ∧ s.red > 1 ∧ s.green > 1 ∧ s.blue > 1
  · obtain ⟨v1, v2, v3, v4, v5, v6, v7⟩ := processSample_valid s hg
    have hr := clamp_mem ((s.red : ℚ) / (s.clear : ℚ) * s.corR) 0 1 (by norm_num)
    have hgq := clamp_mem ((s.green : ℚ) / (s.clear : ℚ) * s.corG) 0 1 (by norm_num)
    have hbq := clamp_mem ((s.blue : ℚ) / (s.clear : ℚ) * s.corB) 0 1 (by norm_num)
    have hw0 : 0 ≤ 2126 / 10000 * clamp ((s.red : ℚ) / (s.clear : ℚ) * s.corR) 0 1 +
        7152 / 10000 * clamp ((s.green : ℚ) / (s.clear : ℚ) * s.corG) 0 1 +
        722 / 10000 * clamp ((s.blue : ℚ) / (s.clear : ℚ) * s.corB) 0 1 := by
      nlinarith [hr.1, hgq.1, hbq.1]
    have hw1 : 2126 / 10000 * clamp ((s.red : ℚ) / (s.clear : ℚ) * s.corR) 0 1 +
        7152 / 10000 * clamp ((s.green : ℚ) / (s.clear : ℚ) * s.corG) 0 1 +
        722 / 10000 * clamp ((s.blue : ℚ) / (s.clear : ℚ) * s.corB) 0 1 ≤ 1 := by
      nlinarith [hr.2, hgq.2, hbq.2]
    have hmc' : 1 ≤ (if s.clear > s.maxClear then s.clear else s.maxClear) := by
      split_ifs with h
      · omega
      · exact hmc
    have hle : s.clear ≤ (if s.clear > s.maxClear then s.clear else s.maxClear) := by
      split_ifs with h <;> omega
    have hcr := clearRatio_unit s.clear _ hmc' hle
    have hlum := LowPassFilter.update_unit s.luminance _ hL.1 hL.2.1 hL.2.2 hw0 hw1
    refine ⟨?_, ?_, ?_, ?_, ?_, ?_, ?_, ?_⟩
    · rw [v1]
      exact ⟨hR.1, (LowPassFilter.update_unit s.ambientRed _ hR.1 hR.2.1 hR.2.2 hr.1 hr.2)⟩
    · rw [v2]
      exact ⟨hG.1, (LowPassFilter.update_unit s.ambientGreen _ hG.1 hG.2.1 hG.2.2 hgq.1 hgq.2)⟩
    · rw [v3]
      exact ⟨hB.1, (LowPassFilter.update_unit s.ambientBlue _ hB.1 hB.2.1 hB.2.2 hbq.1 hbq.2)⟩
    · rw [v4]
      exact ⟨hC.1, (LowPassFilter.update_unit s.ambientClear _ hC.1 hC.2.1 hC.2.2 hcr.1 hcr.2)⟩
    · rw [v5]
      exact ⟨hL.1, hlum⟩
    · rw [v6, v5]
      exact hlum.1
    · rw [v6, v5]
      exact hlum.2
    · rw [v7]
      exact hmc'
  · obtain ⟨i1, i2, i3, i4, i5, i6, i7⟩ := processSample_invalid s hg
    have hbq := brightnessQ_unit s.brightness hb0 hb1
    have hal := interpQ_unit s.ambientLuminance ((s.brightness : ℚ) / 255) (1 / 1000)
      hal0 hal1 hbq.1 hbq.2 (by norm_num) (by norm_num)
    have hal' : 0 ≤ (processSample s).ambientLuminance ∧
        (processSample s).ambientLuminance ≤ 1 := by
      rw [i1]
      exact hal
    refine ⟨?_, ?_, ?_, ?_, ?_, ?_, ?_, ?_⟩
    · rw [i2]
      exact ⟨hR.1, (LowPassFilter.update_unit s.ambientRed _ hR.1 hR.2.1 hR.2.2 hal'.1 hal'.2)⟩
    · rw [i3]
      exact ⟨hG.1, (LowPassFilter.update_unit s.ambientGreen _ hG.1 hG.2.1 hG.2.2 hal'.1 hal'.2)⟩
    · rw [i4]
      exact ⟨hB.1, (LowPassFilter.update_unit s.ambientBlue _ hB.1 hB.2.1 hB.2.2 hal'.1 hal'.2)⟩
    · rw [i5]
      exact hC
    · rw [i6]
      exact hL
    · exact hal'.1
    · exact hal'.2
    · rw [i7]
      exact hmc

theorem ambientLoop_AmbInv (s : ControllerState) (sample : Option RawSample) (now : ℕ)
    (hI : AmbInv s) (hb0 : 0 ≤ s.brightness) (hb1 : s.brightness ≤ 255) :
    AmbInv (ambientLoop s sample now) := by
  cases sample with
  | none =>
    simp only [ambientLoop]
    split_ifs with h1 h2
    · exact hI
    · exact ⟨hI.1, hI.2.1, hI.2.2.1, hI.2.2.2.1, hI.2.2.2.2.1, hI.2.2.2.2.2.1,
        hI.2.2.2.2.2.2.1, le_max_right _ 1⟩
    · exact hI
  | some sm =>
    have hA : AmbInv (processSample
        { s with red := sm.red, green := sm.green, blue := sm.blue, clear := sm.clear }) :=
      processSample_AmbInv _ hI hb0 hb1
    simp only [ambientLoop]
    split_ifs with h1 h2
    · exact hI
    · exact ⟨hA.1, hA.2.1, hA.2.2.1, hA.2.2.2.1, hA.2.2.2.2.1, hA.2.2.2.2.2.1,
        hA.2.2.2.2.2.2.1, le_max_right _ 1⟩
    · exact hA

theorem dynFactor_unit (s : ControllerState) (hI : AmbInv s)
    (hb0 : 0 ≤ s.brightness) (hb1 : s.brightness ≤ 255) :
    0 ≤ dynFactor s ∧ dynFactor s ≤ 1 := by
  have hbq := brightnessQ_unit s.brightness hb0 hb1
  exact interpQ_unit (13 / 100) ((s.brightness : ℚ) / 255) s.ambientClear.y0
    (by norm_num) (by norm_num) hbq.1 hbq.2 hI.2.2.2.1.2.1 hI.2.2.2.1.2.2

theorem ambientTarget_unit (s : ControllerState) (hI : AmbInv s)
    (hb0 : 0 ≤ s.brightness) (hb1 : s.brightness ≤ 255) :
    (0 ≤ (ambientTarget s).1 ∧ (ambientTarget s).1 ≤ 255) ∧
    (0 ≤ (ambientTarget s).2.1 ∧ (ambientTarget s).2.1 ≤ 255) ∧
    (0 ≤ (ambientTarget s).2.2 ∧ (ambientTarget s).2.2 ≤ 255) := by
  obtain ⟨hd0, hd1⟩ := dynFactor_unit s hI hb0 hb1
  obtain ⟨hR, hG, hB, _⟩ := hI
  unfold ambientTarget
  dsimp only
  refine ⟨⟨?_, ?_⟩, ⟨?_, ?_⟩, ⟨?_, ?_⟩⟩
  · nlinarith [hR.2.1]
  · nlinarith [hR.2.1, hR.2.2]
  · nlinarith [hG.2.1]
  · nlinarith [hG.2.1, hG.2.2]
  · nlinarith [hB.2.1]
  · nlinarith [hB.2.1, hB.2.2]

theorem initColors_AmbInv (st : ControllerState) (h s v : ℚ) (hI : AmbInv st)
    (hb0 : 0 ≤ st.brightness) (hb1 : st.brightness ≤ 255) :
    AmbInv (initColors st h s v) := by
  have hbq := brightnessQ_unit st.brightness hb0 hb1
  have hbyte : ∀ n : ℕ, n ≤ 255 → 0 ≤ (n : ℚ) / 255 ∧ (n : ℚ) / 255 ≤ 1 := by
    intro n hn
    constructor
    · positivity
    · rw [div_le_one (by norm_num)]
      exact_mod_cast hn
  obtain ⟨hR, hG, hB, hC, hL, hal0, hal1, hmc⟩ := hI
  have hr := hbyte (hsv1_to_rgb255 h s v).r (ratToByte_le _)
  have hg := hbyte (hsv1_to_rgb255 h s v).g (ratToByte_le _)
  have hb := hbyte (hsv1_to_rgb255 h s v).b (ratToByte_le _)
  exact ⟨⟨hR.1, hr.1, hr.2⟩, ⟨hG.1, hg.1, hg.2⟩, ⟨hB.1, hb.1, hb.2⟩, hC,
    ⟨hL.1, hbq.1, hbq.2⟩, hal0, hal1, hmc⟩

-- C10: smoothing state stays in [0,1], output bytes never wrap ----------------

/-- C10: the five smoothing-filter accumulators and the tracked luminance
stay in `[0, 1]` across every `ambientLoop` poll (and `initColors`
establishes the same invariant), and consequently — given
`brightness ∈ [0, 255]` — the dynamic factor `dyn` lies in `[0, 1]`, each
channel `filter.y0 * dyn * 255` of the ambient target color lies in
`[0, 255]`, and the narrowing conversion into the byte fields of `ColorRGB`
is the plain integer truncation, without wraparound. -/
theorem c10_filter_invariant :
    (∀ (s : ControllerState) (sample : Option RawSample) (now : ℕ),
      AmbInv s → 0 ≤ s.brightness → s.brightness ≤ 255 →
      AmbInv (ambientLoop s sample now)) ∧
    (∀ s : ControllerState, AmbInv s → 0 ≤ s.brightness → s.brightness ≤ 255 →
      (0 ≤ dynFactor s ∧ dynFactor s ≤ 1) ∧
      ((0 ≤ (ambientTarget s).1 ∧ (ambientTarget s).1 ≤ 255) ∧
       (0 ≤ (ambientTarget s).2.1 ∧ (ambientTarget s).2.1 ≤ 255) ∧
       (0 ≤ (ambientTarget s).2.2 ∧ (ambientTarget s).2.2 ≤ 255)) ∧
      (ratToByte (ambientTarget s).1 = Int.toNat ⌊(ambientTarget s).1⌋ ∧
       ratToByte (ambientTarget s).2.1 = Int.toNat ⌊(ambientTarget s).2.1⌋ ∧
       ratToByte (ambientTarget s).2.2 = Int.toNat ⌊(ambientTarget s).2.2⌋)) ∧
    (∀ (st : ControllerState) (h s v : ℚ),
      AmbInv st → 0 ≤ st.brightness → st.brightness ≤ 255 →
      AmbInv (initColors st h s v)) := by
  refine ⟨ambientLoop_AmbInv, ?_, initColors_AmbInv⟩
  intro s hI hb0 hb1
  obtain ⟨t1, t2, t3⟩ := ambientTarget_unit s hI hb0 hb1
  exact ⟨dynFactor_unit s hI hb0 hb1, ⟨t1, t2, t3⟩,
    (ratToByte_no_wrap _ t1.1 t1.2).1, (ratToByte_no_wrap _ t2.1 t2.2).1,
    (ratToByte_no_wrap _ t3.1 t3.2).1⟩

/-- C10 witness: the initial state satisfies the invariant and one ambient
poll from it preserves it. -/
theorem c10_filter_invariant_witness :
    AmbInv initState ∧ AmbInv (ambientLoop initState none 0) :=
  ⟨by with_unfolding_all decide,
   c10_filter_invariant.1 initState none 0 (by with_unfolding_all decide)
     (by with_unfolding_all decide) (by with_unfolding_all decide)⟩

-- dynamic range tracker machinery --------------------------------------------

theorem processSample_fields (s : ControllerState) :
    s.maxClear ≤ (processSample s).maxClear ∧
    (processSample s).maxClear ≤ max s.maxClear s.clear ∧
    (processSample s).dynTime = s.dynTime ∧
    (processSample s).clear = s.clear := by
  unfold processSample
  split_ifs <;> refine ⟨?_, ?_, rfl, rfl⟩ <;> simp <;> omega

theorem ambientPre_fields (s : ControllerState) (sm : Option RawSample) :
    s.maxClear ≤ (ambientPre s sm).maxClear ∧
    (ambientPre s sm).maxClear ≤ max s.maxClear (evClear s sm) ∧
    (ambientPre s sm).dynTime = s.dynTime ∧
    (ambientPre s sm).clear = evClear s sm := by
  cases sm with
  | none => exact ⟨le_refl _, le_max_left _ _, rfl, rfl⟩
  | some x =>
    obtain ⟨a, b, c, d⟩ := processSample_fields
      { s with red := x.red, green := x.green, blue := x.blue, clear := x.clear }
    exact ⟨a, b, c, d⟩

theorem ambientLoop_cases (s : ControllerState) (sm : Option RawSample) (now : ℕ) :
    (s.mode ≠ Mode.AMBIENT ∧ ambientLoop s sm now = s) ∨
    (s.mode = Mode.AMBIENT ∧
      ((((ambientPre s sm).clear < (ambientPre s sm).maxClear ∧
          now - (ambientPre s sm).dynTime > 2000) ∧
        (ambientLoop s sm now).maxClear = max ((ambientPre s sm).maxClear - 1) 1 ∧
        (ambientLoop s sm now).dynTime = now) ∨
       (¬ ((ambientPre s sm).clear < (ambientPre s sm).maxClear ∧
          now - (ambientPre s sm).dynTime > 2000) ∧
        (ambientLoop s sm now).maxClear = (ambientPre s sm).maxClear ∧
        (ambientLoop s sm now).dynTime = (ambientPre s sm).dynTime))) := by
  by_cases hm : s.mode = Mode.AMBIENT
  · right
    refine ⟨hm, ?_⟩
    have hnn : ¬ (s.mode ≠ Mode.AMBIENT) := fun hh => hh hm
    by_cases hd : (ambientPre s sm).clear < (ambientPre s sm).maxClear ∧
        now - (ambientPre s sm).dynTime > 2000
    · left
      refine ⟨hd, ?_, ?_⟩ <;>
        · unfold ambientLoop
          rw [if_neg hnn]
          cases sm <;>
            · simp only [ambientPre] at hd ⊢
              try dsimp only
              rw [if_pos hd]
    · right
      refine ⟨hd, ?_, ?_⟩ <;>
        · unfold ambientLoop
          rw [if_neg hnn]
          cases sm <;>
            · simp only [ambientPre] at hd ⊢
              try dsimp only
              rw [if_neg hd]
  · left
    refine ⟨hm, ?_⟩
    simp [ambientLoop, hm]

theorem ambientLoop_maxClear_pos (s : ControllerState) (sm : Option RawSample) (now : ℕ)
    (h : 1 ≤ s.maxClear) : 1 ≤ (ambientLoop s sm now).maxClear := by
  rcases ambientLoop_cases s sm now with ⟨_, he⟩ | ⟨_, ⟨_, hM, _⟩ | ⟨_, hM, _⟩⟩
  · rw [he]
    exact h
  · rw [hM]
    exact le_max_right _ 1
  · rw [hM]
    exact le_trans h (ambientPre_fields s sm).1

theorem ambientLoop_decr (s : ControllerState) (sm : Option RawSample) (now : ℕ)
    (hD : (ambientLoop s sm now).maxClear < s.maxClear) :
    (ambientLoop s sm now).maxClear = s.maxClear - 1 ∧
    now - s.dynTime > 2000 ∧ (ambientLoop s sm now).dynTime = now := by
  obtain ⟨hpre1, hpre2, hpreT, hpreC⟩ := ambientPre_fields s sm
  rcases ambientLoop_cases s sm now with ⟨_, he⟩ | ⟨_, ⟨hc, hM, hT⟩ | ⟨_, hM, hT⟩⟩
  · rw [he] at hD
    omega
  · rw [hM] at hD ⊢
    rw [hpreT] at hc
    exact ⟨by omega, hc.2, hT⟩
  · rw [hM] at hD
    omega

theorem ambientLoop_dynTime_mono (s : ControllerState) (sm : Option RawSample) (now t : ℕ)
    (h : t ≤ s.dynTime) : t ≤ (ambientLoop s sm now).dynTime := by
  obtain ⟨hpre1, hpre2, hpreT, hpreC⟩ := ambientPre_fields s sm
  rcases ambientLoop_cases s sm now with ⟨_, he⟩ | ⟨_, ⟨hc, _, hT⟩ | ⟨_, _, hT⟩⟩
  · rw [he]
    exact h
  · rw [hT]
    rw [hpreT] at hc
    omega
  · rw [hT, hpreT]
    exact h

theorem ambientLoop_maxClear_le (s : ControllerState) (sm : Option RawSample) (now : ℕ) :
    (ambientLoop s sm now).maxClear ≤ max s.maxClear (evClear s sm) := by
  obtain ⟨hpre1, hpre2, hpreT, hpreC⟩ := ambientPre_fields s sm
  rcases ambientLoop_cases s sm now with ⟨_, he⟩ | ⟨_, ⟨hc, hM, hT⟩ | ⟨_, hM, hT⟩⟩
  · rw [he]
    exact le_max_left _ _
  · rw [hM]
    omega
  · rw [hM]
    exact hpre2

theorem runAmbient_append (s : ControllerState) (a b : List (Option RawSample × ℕ)) :
    runAmbient s (a ++ b) = runAmbient (runAmbient s a) b := by
  unfold runAmbient
  rw [List.foldl_append]

theorem runAmbient_maxClear_pos (evs : List (Option RawSample × ℕ)) :
    ∀ s : ControllerState, 1 ≤ s.maxClear → 1 ≤ (runAmbient s evs).maxClear := by
  induction evs with
  | nil => exact fun s h => h
  | cons e t ih =>
    intro s h
    exact ih _ (ambientLoop_maxClear_pos s e.1 e.2 h)

theorem runAmbient_dynTime_mono (t : ℕ) (evs : List (Option RawSample × ℕ)) :
    ∀ s : ControllerState, t ≤ s.dynTime → t ≤ (runAmbient s evs).dynTime := by
  induction evs with
  | nil => exact fun s h => h
  | cons e tl ih =>
    intro s h
    exact ih _ (ambientLoop_dynTime_mono s e.1 e.2 t h)

-- C3: maxClear invariant and decay discipline ---------------------------------

/-- C3: starting from any state with `maxClear ≥ 1` (the initializer is 1),
`maxClear ≥ 1` holds after every run of ambient-loop polls; whenever an
ambient poll decreases `maxClear` it does so by exactly 1 and only when more
than 2000 ms have passed since `dynTime`, stamping `dynTime` with the poll
time; otherwise `maxClear` can only grow, and never beyond the largest
observed raw clear count; consequently any two decrementing polls of one run
are separated by more than 2000 ms. -/
theorem c3_maxClear_tracker :
    (∀ (s : ControllerState) (evs : List (Option RawSample × ℕ)),
      1 ≤ s.maxClear → 1 ≤ (runAmbient s evs).maxClear) ∧
    (∀ (s : ControllerState) (ev : Option RawSample × ℕ),
      DecrementsAt s ev →
      (ambientLoop s ev.1 ev.2).maxClear = s.maxClear - 1 ∧
      ev.2 - s.dynTime > 2000 ∧ (ambientLoop s ev.1 ev.2).dynTime = ev.2) ∧
    (∀ (s : ControllerState) (ev : Option RawSample × ℕ),
      (ambientLoop s ev.1 ev.2).maxClear ≤ max s.maxClear (evClear s ev.1)) ∧
    (∀ (s : ControllerState) (pre mid : List (Option RawSample × ℕ))
        (e1 e2 : Option RawSample × ℕ),
      DecrementsAt (runAmbient s pre) e1 →
      DecrementsAt (runAmbient s (pre ++ e1 :: mid)) e2 →
      e2.2 - e1.2 > 2000) := by
  refine ⟨fun s evs h => runAmbient_maxClear_pos evs s h,
    fun s ev hD => ambientLoop_decr s ev.1 ev.2 hD,
    fun s ev => ambientLoop_maxClear_le s ev.1 ev.2, ?_⟩
  intro s pre mid e1 e2 h1 h2
  obtain ⟨_, _, hT⟩ := ambientLoop_decr (runAmbient s pre) e1.1 e1.2 h1
  have hrw : runAmbient s (pre ++ e1 :: mid) =
      runAmbient (ambientLoop (runAmbient s pre) e1.1 e1.2) mid := by
    rw [runAmbient_append]
    rfl
  have hmono : e1.2 ≤ (runAmbient (ambientLoop (runAmbient s pre) e1.1 e1.2) mid).dynTime :=
    runAmbient_dynTime_mono e1.2 mid _ (le_of_eq hT.symm)
  rw [hrw] at h2
  obtain ⟨_, hgt, _⟩ := ambientLoop_decr _ e2.1 e2.2 h2
  omega

/-- C3 witness: a concrete ambient poll that decrements `maxClear` from 5 to
4 after the 2000 ms decay interval. -/
theorem c3_maxClear_tracker_witness :
    DecrementsAt { initState with mode := Mode.AMBIENT, maxClear := 5, clear := 2 } (none, 3000) ∧
    (ambientLoop { initState with mode := Mode.AMBIENT, maxClear := 5, clear := 2 } none 3000).maxClear =
      ({ initState with mode := Mode.AMBIENT, maxClear := 5, clear := 2 } : ControllerState).maxClear - 1 :=
  ⟨by with_unfolding_all decide,
   (c3_maxClear_tracker.2.1 { initState with mode := Mode.AMBIENT, maxClear := 5, clear := 2 }
      (none, 3000) (by with_unfolding_all decide)).1⟩

-- debouncer trace machinery --------------------------------------------------

theorem debounceRun_state (tr : List (Bool × ℕ)) :
    ∀ (s : DebounceState) (c : ℕ),
      (tr.foldl (fun acc ev =>
          let r := debounceInput acc.1 ev.1 ev.2
          (r.1, acc.2 + (if r.2 then 1 else 0))) (s, c)).1 = (debounceRun s tr).1 := by
  induction tr with
  | nil =>
    intro s c
    rfl
  | cons e t ih =>
    intro s c
    simp only [List.foldl_cons, debounceRun]
    rw [ih, ih]

theorem debounceRun_count (tr : List (Bool × ℕ)) :
    ∀ (s : DebounceState) (c : ℕ),
      (tr.foldl (fun acc ev =>
          let r := debounceInput acc.1 ev.1 ev.2
          (r.1, acc.2 + (if r.2 then 1 else 0))) (s, c)).2 = c + (debounceRun s tr).2 := by
  induction tr with
  | nil =>
    intro s c
    rfl
  | cons e t ih =>
    intro s c
    simp only [List.foldl_cons, debounceRun]
    rw [ih, ih]
    omega

theorem debounceRun_cons (s : DebounceState) (e : Bool × ℕ) (tr : List (Bool × ℕ)) :
    (debounceRun s (e :: tr)).1 = (debounceRun (debounceInput s e.1 e.2).1 tr).1 ∧
    (debounceRun s (e :: tr)).2 =
      (if (debounceInput s e.1 e.2).2 then 1 else 0) +
        (debounceRun (debounceInput s e.1 e.2).1 tr).2 := by
  constructor
  · calc (debounceRun s (e :: tr)).1
        = (tr.foldl (fun acc ev =>
            let r := debounceInput acc.1 ev.1 ev.2
            (r.1, acc.2 + (if r.2 then 1 else 0)))
            ((debounceInput s e.1 e.2).1, 0 + (if (debounceInput s e.1 e.2).2 then 1 else 0))).1 := rfl
      _ = _ := debounceRun_state tr _ _
  · calc (debounceRun s (e :: tr)).2
        = (tr.foldl (fun acc ev =>
            let r := debounceInput acc.1 ev.1 ev.2
            (r.1, acc.2 + (if r.2 then 1 else 0)))
            ((debounceInput s e.1 e.2).1, 0 + (if (debounceInput s e.1 e.2).2 then 1 else 0))).2 := rfl
      _ = _ := by rw [debounceRun_count]; omega

theorem debounceRun_append_count (s : DebounceState) (a b : List (Bool × ℕ)) :
    (debounceRun s (a ++ b)).2 =
      (debounceRun s a).2 + (debounceRun (debounceRun s a).1 b).2 := by
  unfold debounceRun
  rw [List.foldl_append]
  calc (b.foldl (fun acc ev =>
        let r := debounceInput acc.1 ev.1 ev.2
        (r.1, acc.2 + (if r.2 then 1 else 0))) ((debounceRun s a).1, (debounceRun s a).2)).2
      = (debounceRun s a).2 + (debounceRun (debounceRun s a).1 b).2 := debounceRun_count b _ _

theorem debounceRun_no_commit (stable : Bool) (t0 : ℕ)
    (tr : List (Bool × ℕ)) :
    ∀ s : DebounceState,
      s.inputState = stable →
      (s.lastReading ≠ stable → t0 ≤ s.lastDebounceTime) →
      (∀ e ∈ tr, e.1 ≠ stable → t0 ≤ e.2 ∧ e.2 - t0 ≤ debounceDelay) →
      (debounceRun s tr).2 = 0 ∧ (debounceRun s tr).1.inputState = stable := by
  induction tr with
  | nil =>
    intro s h1 _ _
    exact ⟨rfl, h1⟩
  | cons e t ih =>
    intro s h1 h2 h3
    set d := (if e.1 ≠ s.lastReading then e.2 else s.lastDebounceTime) with hdd
    have hd : e.1 ≠ stable → t0 ≤ d := by
      intro he
      rw [hdd]
      split_ifs with hlr
      · exact (h3 e (List.mem_cons_self e t) he).1
      · have hlr' : s.lastReading = e.1 := by
          by_contra hx
          exact hlr fun hy => hx hy.symm
        exact h2 (by rw [hlr']; exact he)
    have hcond : ¬ (e.2 - d > debounceDelay ∧ e.1 ≠ s.inputState) := by
      rintro ⟨hgt, hne⟩
      have he : e.1 ≠ stable := by rw [← h1]; exact hne
      have h4 := (h3 e (List.mem_cons_self e t) he).2
      have h5 := hd he
      omega
    have heq : debounceInput s e.1 e.2 = (⟨e.1, s.inputState, d⟩, false) := by
      rw [debounceInput_cases, ← hdd, if_neg hcond]
    obtain ⟨hc1, hc2⟩ := debounceRun_cons s e t
    rw [heq] at hc1 hc2
    have ih' := ih ⟨e.1, s.inputState, d⟩
      h1 (fun hne => hd hne) (fun x hx hxx => h3 x (List.mem_cons_of_mem e hx) hxx)
    constructor
    · rw [hc2]
      simpa using ih'.1
    · rw [hc1]
      simpa using ih'.2

theorem debounceRun_idle (L : Bool) (tr : List (Bool × ℕ)) :
    ∀ s : DebounceState, s.lastReading = L → s.inputState = L →
      (∀ e ∈ tr, e.1 = L) → (debounceRun s tr).2 = 0 := by
  induction tr with
  | nil =>
    intro s _ _ _
    rfl
  | cons e t ih =>
    intro s h1 h2 h3
    have he := h3 e (List.mem_cons_self e t)
    have hlr : ¬ (e.1 ≠ s.lastReading) := by
      rw [he, h1]
      simp
    have heq : debounceInput s e.1 e.2 = (⟨e.1, s.inputState, s.lastDebounceTime⟩, false) := by
      rw [debounceInput_cases, if_neg hlr]
      rw [if_neg]
      rintro ⟨_, hne⟩
      exact hne (by rw [he, h2])
    obtain ⟨hc1, hc2⟩ := debounceRun_cons s e t
    rw [heq] at hc1 hc2
    rw [hc2]
    have hz := ih ⟨e.1, s.inputState, s.lastDebounceTime⟩ he h2
      (fun x hx => h3 x (List.mem_cons_of_mem e hx))
    simp [hz]

theorem debounceRun_pending (L stable : Bool) (t0 : ℕ) (hne : L ≠ stable)
    (tr : List (Bool × ℕ)) :
    (∀ e ∈ tr, e.1 = L) →
    (debounceRun ⟨L, stable, t0⟩ tr).2 =
      (if ∃ e ∈ tr, e.2 - t0 > debounceDelay then 1 else 0) := by
  induction tr with
  | nil =>
    intro
    simp [debounceRun]
  | cons e t ih =>
    intro h3
    have he := h3 e (List.mem_cons_self e t)
    have hlr : ¬ (e.1 ≠ (DebounceState.mk L stable t0).lastReading) := by
      rw [he]
      simp
    by_cases hgt : e.2 - t0 > debounceDelay
    · have heq : debounceInput ⟨L, stable, t0⟩ e.1 e.2 = (⟨e.1, e.1, t0⟩, true) := by
        rw [debounceInput_cases, if_neg hlr, if_pos]
        exact ⟨hgt, by rw [he]; exact hne⟩
      obtain ⟨hc1, hc2⟩ := debounceRun_cons ⟨L, stable, t0⟩ e t
      rw [heq] at hc1 hc2
      rw [hc2]
      have hzero := debounceRun_idle L t ⟨e.1, e.1, t0⟩ he he
        (fun x hx => h3 x (List.mem_cons_of_mem e hx))
      have hex : ∃ x ∈ e :: t, x.2 - t0 > debounceDelay :=
        ⟨e, List.mem_cons_self e t, hgt⟩
      rw [if_pos hex]
      simp [hzero]
    · have heq : debounceInput ⟨L, stable, t0⟩ e.1 e.2 = (⟨e.1, stable, t0⟩, false) := by
        rw [debounceInput_cases, if_neg hlr, if_neg]
        rintro ⟨hx, _⟩
        exact hgt hx
      obtain ⟨hc1, hc2⟩ := debounceRun_cons ⟨L, stable, t0⟩ e t
      rw [heq] at hc1 hc2
      rw [hc2]
      rw [he] at *
      have hih := ih (fun x hx => h3 x (List.mem_cons_of_mem e hx))
      simp [hih]
      have hiff : (∃ x ∈ e :: t, x.2 - t0 > debounceDelay) ↔
          (∃ x ∈ t, x.2 - t0 > debounceDelay) := by
        rw [List.exists_mem_cons_iff]
        simp [hgt]
      rw [if_congr hiff rfl rfl]

-- C2: debouncer guarantees ----------------------------------------------------

/-- C2: the debouncer commits at most one transition per call (one call adds
at most one to the committed-transition count of any trace); an excursion of
the raw level away from the stable state whose samples all lie within less
than the 50 ms window of the excursion start produces zero committed
transitions and leaves the stable state unchanged; a level change held
stable past the window (some sample more than 50 ms after the change)
produces exactly one committed transition. -/
theorem c2_debounce_guarantees :
    (∀ (s : DebounceState) (tr : List (Bool × ℕ)) (e : Bool × ℕ),
      (debounceRun s (tr ++ [e])).2 ≤ (debounceRun s tr).2 + 1) ∧
    (∀ (s : DebounceState) (stable : Bool) (t0 : ℕ) (tr : List (Bool × ℕ)),
      s.lastReading = stable → s.inputState = stable →
      (∀ e ∈ tr, e.1 ≠ stable → t0 ≤ e.2 ∧ e.2 - t0 < debounceDelay) →
      (debounceRun s tr).2 = 0 ∧ (debounceRun s tr).1.inputState = stable) ∧
    (∀ (s : DebounceState) (stable L : Bool) (t0 : ℕ) (rest : List (Bool × ℕ)),
      s.lastReading = stable → s.inputState = stable → L ≠ stable →
      (∀ e ∈ rest, e.1 = L) →
      (∃ e ∈ rest, e.2 - t0 > debounceDelay) →
      (debounceRun s ((L, t0) :: rest)).2 = 1) := by
  refine ⟨?_, ?_, ?_⟩
  · intro s tr e
    rw [debounceRun_append_count]
    have h1 : (debounceRun (debounceRun s tr).1 [e]).2 ≤ 1 := by
      unfold debounceRun
      simp only [List.foldl_cons, List.foldl_nil]
      split_ifs <;> omega
    omega
  · intro s stable t0 tr h1 h2 h3
    exact debounceRun_no_commit stable t0 tr s h2 (fun hx => absurd h1 hx)
      (fun e he hnee => ⟨(h3 e he hnee).1, by have := (h3 e he hnee).2; omega⟩)
  · intro s stable L t0 rest h1 h2 hne h3 hex
    have hlr : (L ≠ s.lastReading) := by
      rw [h1]
      exact hne
    have heq : debounceInput s L t0 = (⟨L, stable, t0⟩, false) := by
      rw [debounceInput_cases, if_pos hlr, if_neg, h2]
      rintro ⟨hx, _⟩
      omega
    obtain ⟨hc1, hc2⟩ := debounceRun_cons s (L, t0) rest
    dsimp only at hc1 hc2
    rw [heq] at hc1 hc2
    rw [hc2]
    have hp := debounceRun_pending L stable t0 hne rest h3
    simp [hp, if_pos hex]

/-- C2 witness: a LOW excursion sampled at 100, 120, 160 ms from an idle HIGH
debouncer (some sample more than 50 ms after the change) commits exactly one
transition. -/
theorem c2_debounce_guarantees_witness :
    (⟨true, true, 0⟩ : DebounceState).lastReading = true ∧
    (∃ e ∈ [((false, 120) : Bool × ℕ), (false, 160)], e.2 - 100 > debounceDelay) ∧
    (debounceRun ⟨true, true, 0⟩ ((false, 100) :: [(false, 120), (false, 160)])).2 = 1 :=
  ⟨rfl, by decide,
   c2_debounce_guarantees.2.2 ⟨true, true, 0⟩ true false 100 [(false, 120), (false, 160)]
     rfl rfl (by decide) (by decide) (by decide)⟩

end LedControl
